import Mathlib

/-!
Verification development for the invoice-processor backend.

The definitions below are a shallow embedding, in Lean 4, of the Python
services of the repository (`backend/app/services/...` and
`backend/app/core/config.py`).  Python floats are modelled by exact
rationals (ℚ); Python `round(x, n)` (banker's rounding) is modelled by
Mathlib's `round` (round half away from midpoints differs only at exact
ties, which the concrete inputs used here avoid); Python dictionaries
holding optional numeric fields are modelled by `Option ℚ`, with Python
truthiness (`None` and `0.0` are falsy) modelled explicitly.
-/

namespace InvoiceProc

/-- Python `s.startswith(p)`, computed on the character lists so that it
evaluates by kernel reduction. -/
def strStartsWith (s p : String) : Bool := p.data.isPrefixOf s.data

/-- Python `n in h` (contiguous substring containment), computed on the
character lists. -/
def strContains (h n : String) : Bool :=
  (List.range (h.data.length + 1)).any (fun i => n.data.isPrefixOf (h.data.drop i))

/-- Python `s[:n]`, computed on the character list. -/
def pyTake (s : String) (n : ℕ) : String := String.mk (s.data.take n)

/-- Python `str.lower()` restricted to ASCII letters (the keyword tables
below are ASCII or already lower-case). -/
def asciiLower (c : Char) : Char :=
  if 'A' ≤ c ∧ c ≤ 'Z' then Char.ofNat (c.toNat + 32) else c

/-- Lower-casing of a whole string. -/
def strLower (s : String) : String := String.mk (s.data.map asciiLower)

/-- Python truthiness for an optional float: `None` and `0.0` are falsy. -/
def pyTruthy : Option ℚ → Bool
  | none => false
  | some x => x ≠ 0

/-- Clamp a rational to the interval [0, 1]; models `max(0.0, min(1.0, score))`. -/
def clamp01 (x : ℚ) : ℚ := max 0 (min 1 x)

/-- Models Python `round(x, 3)` (ties aside, see the module comment). -/
def roundTo3 (x : ℚ) : ℚ := (round (x * 1000) : ℤ) / 1000

/-- Models Python `round(x, 2)` (ties aside, see the module comment). -/
def roundTo2 (x : ℚ) : ℚ := (round (x * 100) : ℤ) / 100

/-- Sum of a list of rationals. -/
def qsum (xs : List ℚ) : ℚ := xs.foldr (· + ·) 0

/-- Arithmetic mean of a list of rationals (0 for the empty list). -/
def qmean (xs : List ℚ) : ℚ := qsum xs / xs.length

/-- Sample variance (denominator n - 1); models Python `statistics.variance`.
Only meaningful for lists of length ≥ 2, matching the guarded call site. -/
def sampleVariance (xs : List ℚ) : ℚ :=
  qsum (xs.map (fun x => (x - qmean xs) ^ 2)) / (xs.length - 1)

/-- Population variance (denominator n); models `numpy.var`. -/
def popVariance (xs : List ℚ) : ℚ :=
  qsum (xs.map (fun x => (x - qmean xs) ^ 2)) / xs.length

/-- One spatial OCR token, as produced by `OCRService.extract_spatial_text`:
per-word text, bounding box in [0,1]-relative coordinates, and the
Tesseract confidence (0-100). -/
structure Word where
  text : String
  x : ℚ
  y : ℚ
  w : ℚ
  h : ℚ
  conf : ℚ
  deriving Repr, DecidableEq

/-! ## Image Quality Analyzer (`image_analyzer.py`) -/

/-- `ImageAnalyzer.HANDWRITING_VARIANCE_THRESHOLD`. -/
def HANDWRITING_VARIANCE_THRESHOLD : ℚ := 15 / 100

/-- `ImageAnalyzer.EXTREMELY_LOW_THRESHOLD`. -/
def EXTREMELY_LOW_THRESHOLD : ℚ := 25

/-- `settings.OCR_LOW_CONFIDENCE_THRESHOLD` (fixed at 80.0 in `config.py`). -/
def OCR_LOW_CONFIDENCE_THRESHOLD : ℚ := 80

/-- Result of `ImageAnalyzer._analyze_image_properties` (blur and contrast
scores on a 0-100 scale).  The underlying numpy/scipy image convolution is
external numeric code; its two output scores are taken as inputs here. -/
structure ImageStats where
  blurScore : ℚ
  contrastScore : ℚ
  deriving Repr, DecidableEq

/-- `ImageAnalyzer._detect_handwriting`: geometric irregularity of token
heights and vertical positions, or a high ratio of medium-confidence
(30-60) tokens, flags handwriting; fewer than 5 tokens never does. -/
def detectHandwriting (words : List Word) (_imageStats : ImageStats) : Bool :=
  if words.isEmpty ∨ words.length < 5 then false
  else
    let heights := words.map (·.h)
    let heightVariance := popVariance heights
    let yPositions := words.map (·.y)
    let yVariance := popVariance yPositions
    let isIrregular := heightVariance > 1 / 1000 ∧ yVariance > HANDWRITING_VARIANCE_THRESHOLD
    let mediumConfCount := (words.filter (fun w => 30 ≤ w.conf ∧ w.conf ≤ 60)).length
    let mediumConfRatio : ℚ := mediumConfCount / words.length
    isIrregular ∨ mediumConfRatio > 1 / 2

/-- The four document quality classes. -/
inductive DocumentQuality where
  | good
  | lowQuality
  | handwritten
  | extremelyLowQuality
  deriving Repr, DecidableEq

/-- `ImageAnalyzer._classify_quality`. -/
def classifyQuality (ocrConfidence : ℚ) (isHandwritten : Bool) (wordCount : ℕ) :
    DocumentQuality :=
  if isHandwritten then .handwritten
  else if ocrConfidence < EXTREMELY_LOW_THRESHOLD ∨ wordCount < 3 then .extremelyLowQuality
  else if ocrConfidence < OCR_LOW_CONFIDENCE_THRESHOLD then .lowQuality
  else .good

/-- The quality-analysis bundle returned by `ImageAnalyzer.analyze` (the
fields consumed downstream by the confidence computation). -/
structure QualityAnalysis where
  quality : DocumentQuality
  ocrConfidence : ℚ
  isLowQuality : Bool
  isHandwritten : Bool
  blurScore : ℚ
  contrastScore : ℚ
  wordCount : ℕ
  deriving Repr, DecidableEq

/-- `ImageAnalyzer.analyze`: combines the OCR aggregate, the handwriting
heuristic and the image statistics into the quality bundle. -/
def analyzeQuality (ocrAvg : ℚ) (wordCount : ℕ) (words : List Word)
    (stats : ImageStats) : QualityAnalysis :=
  let isHandwritten := detectHandwriting words stats
  { quality := classifyQuality ocrAvg isHandwritten wordCount
    ocrConfidence := ocrAvg
    isLowQuality := ocrAvg < OCR_LOW_CONFIDENCE_THRESHOLD
    isHandwritten := isHandwritten
    blurScore := stats.blurScore
    contrastScore := stats.contrastScore
    wordCount := wordCount }

/-! ## Confidence & routing policy (`analysis_service.py`,
`_calculate_confidence_score`) -/

/-- The two processing pipelines: `florence` is the local extractor,
`claude` the cloud extractor. -/
inductive Pipeline where
  | florence
  | claude
  deriving Repr, DecidableEq

/-- `AnalysisService._calculate_confidence_score`, translated line by line:
positive-confidence tokens are averaged and normalized, penalties are
multiplied in, the score is clamped to [0,1], the routing is decided
against the configured threshold, and the rounded score is returned. -/
def calculateConfidenceScore (words : List Word) (qa : QualityAnalysis) :
    ℚ × Pipeline :=
  let confidences := (words.filter (fun w => w.conf > 0)).map (·.conf)
  if confidences.isEmpty then (0, .claude)
  else
    let avgConf := qsum confidences / confidences.length / 100
    let score := avgConf
    let score :=
      if confidences.length > 1 ∧ sampleVariance confidences > 500 then score * (8 / 10)
      else score
    let score := if qa.isHandwritten then score * (5 / 10) else score
    let score := if qa.blurScore < 20 then score * (9 / 10) else score
    let score := if qa.contrastScore < 30 then score * (9 / 10) else score
    let score := clamp01 score
    let threshold := OCR_LOW_CONFIDENCE_THRESHOLD / 100
    let suggested : Pipeline :=
      if score ≥ threshold ∧ ¬qa.isHandwritten then .florence else .claude
    (roundTo3 score, suggested)

/-- Written from the specification text of §4.4, for comparison with the
code: base score = mean positive token confidence normalized to [0,1];
independent multiplicative penalties ×0.8 (confidence variance above the
fixed threshold), ×0.5 (handwriting), ×0.9 (blur score < 20), ×0.9
(contrast score < 30); clamp to [0,1]; round to 3 decimals; recommend the
cloud extractor unless the score reaches the threshold and no handwriting
was detected. -/
def specConfidenceScore (words : List Word) (qa : QualityAnalysis) :
    ℚ × Pipeline :=
  let confidences := (words.filter (fun w => w.conf > 0)).map (·.conf)
  if confidences.isEmpty then (0, .claude)
  else
    let base := qmean confidences / 100
    let variancePenalty : ℚ :=
      if confidences.length > 1 ∧ sampleVariance confidences > 500 then 8 / 10 else 1
    let handwritingPenalty : ℚ := if qa.isHandwritten then 5 / 10 else 1
    let blurPenalty : ℚ := if qa.blurScore < 20 then 9 / 10 else 1
    let contrastPenalty : ℚ := if qa.contrastScore < 30 then 9 / 10 else 1
    let score :=
      clamp01 (base * variancePenalty * handwritingPenalty * blurPenalty * contrastPenalty)
    let suggested : Pipeline :=
      if score ≥ OCR_LOW_CONFIDENCE_THRESHOLD / 100 ∧ ¬qa.isHandwritten
      then .florence else .claude
    (roundTo3 score, suggested)

/-- Helper: `roundTo3` maps [0, 1] into [0, 1]. -/
theorem roundTo3_mem_unit {x : ℚ} (h0 : 0 ≤ x) (h1 : x ≤ 1) :
    0 ≤ roundTo3 x ∧ roundTo3 x ≤ 1 := by
  unfold roundTo3
  rw [round_eq]
  constructor
  · have : (0 : ℤ) ≤ ⌊x * 1000 + 1 / 2⌋ := by
      apply Int.floor_nonneg.mpr
      nlinarith
    positivity
  · have h : ⌊x * 1000 + 1 / 2⌋ ≤ 1000 := by
      have : x * 1000 + 1 / 2 ≤ 1000 + 1 / 2 := by nlinarith
      calc ⌊x * 1000 + 1 / 2⌋ ≤ ⌊(1000 : ℚ) + 1 / 2⌋ := Int.floor_le_floor this
        _ = 1000 := by norm_num [Int.floor_eq_iff]
    rw [div_le_one (by norm_num)]
    exact_mod_cast h

/-- Helper: `clamp01` lands in [0, 1]. -/
theorem clamp01_mem_unit (x : ℚ) : 0 ≤ clamp01 x ∧ clamp01 x ≤ 1 := by
  unfold clamp01
  constructor
  · exact le_max_left 0 _
  · exact max_le (by norm_num) (min_le_left 1 x)

/-- C1.  The confidence computation agrees with the specification of §4.4:
the returned score is the mean positive token confidence normalized to
[0,1] with the four penalties applied multiplicatively and independently
(×0.8 for confidence variance above 500, ×0.5 for handwriting, ×0.9 for
blur score below 20, ×0.9 for contrast score below 30), clamped to [0,1]
and rounded to 3 decimals; the cloud extractor is recommended unless the
score reaches the configured threshold and no handwriting was detected. -/
theorem confidence_score_matches_spec (words : List Word) (qa : QualityAnalysis) :
    calculateConfidenceScore words qa = specConfidenceScore words qa := by
  unfold calculateConfidenceScore specConfidenceScore qmean
  by_cases hE : ((words.filter (fun w => w.conf > 0)).map (·.conf)).isEmpty
  · simp [hE]
  · simp only [hE, if_false, Bool.false_eq_true]
    set cs := (words.filter (fun w => w.conf > 0)).map (·.conf) with hcs
    by_cases h1 : cs.length > 1 ∧ sampleVariance cs > 500 <;>
      by_cases h2 : qa.isHandwritten = true <;>
        by_cases h3 : qa.blurScore < 20 <;>
          by_cases h4 : qa.contrastScore < 30 <;>
            simp [h1, h2, h3, h4, mul_one]

/-- C7.  The returned score always lies in [0,1]; with no
positive-confidence token the result is exactly 0 and the cloud pipeline
is recommended. -/
theorem confidence_score_bounds (words : List Word) (qa : QualityAnalysis) :
    0 ≤ (calculateConfidenceScore words qa).1 ∧
    (calculateConfidenceScore words qa).1 ≤ 1 ∧
    ((words.filter (fun w => w.conf > 0)) = [] →
      calculateConfidenceScore words qa = (0, .claude)) := by
  unfold calculateConfidenceScore
  by_cases hE : ((words.filter (fun w => w.conf > 0)).map (·.conf)).isEmpty
  · simp [hE]
  · simp only [hE, if_false, Bool.false_eq_true]
    refine ⟨?_, ?_, ?_⟩
    · exact (roundTo3_mem_unit (clamp01_mem_unit _).1 (clamp01_mem_unit _).2).1
    · exact (roundTo3_mem_unit (clamp01_mem_unit _).1 (clamp01_mem_unit _).2).2
    · intro h
      rw [h] at hE
      simp at hE

/-- Witness for `confidence_score_bounds` at a concrete input: an empty
token list yields score 0 and the cloud pipeline. -/
theorem confidence_score_bounds_witness :
    calculateConfidenceScore []
      { quality := .good, ocrConfidence := 0, isLowQuality := false,
        isHandwritten := false, blurScore := 50, contrastScore := 50,
        wordCount := 0 } = (0, .claude) :=
  (confidence_score_bounds []
    { quality := .good, ocrConfidence := 0, isLowQuality := false,
      isHandwritten := false, blurScore := 50, contrastScore := 50,
      wordCount := 0 }).2.2 (by decide)

/-- C10.  Handwriting detection returns false for every token list with
fewer than 5 tokens, so such a document is never classified as
handwritten and the ×0.5 handwriting penalty never applies to it (its
confidence score equals the score computed with the handwriting flag
forced off). -/
theorem short_token_list_not_handwritten (words : List Word) (stats : ImageStats)
    (h : words.length < 5) :
    detectHandwriting words stats = false ∧
    (∀ ocrAvg wordCount,
      (analyzeQuality ocrAvg wordCount words stats).quality ≠ .handwritten ∧
      (analyzeQuality ocrAvg wordCount words stats).isHandwritten = false) ∧
    (∀ qa : QualityAnalysis, qa.isHandwritten = detectHandwriting words stats →
      calculateConfidenceScore words qa =
        calculateConfidenceScore words { qa with isHandwritten := false }) := by
  have hd : detectHandwriting words stats = false := by
    unfold detectHandwriting
    simp [h]
  refine ⟨hd, ?_, ?_⟩
  · intro ocrAvg wordCount
    constructor
    · unfold analyzeQuality classifyQuality
      rw [hd]
      split_ifs <;> simp
    · unfold analyzeQuality
      simpa using hd
  · intro qa hqa
    rw [hd] at hqa
    have : { qa with isHandwritten := false } = qa := by
      cases qa
      simp_all
    rw [this]

/-- Witness for `short_token_list_not_handwritten`: a concrete 4-token
document is not flagged as handwritten. -/
theorem short_token_list_not_handwritten_witness :
    detectHandwriting
      [⟨"a", 0, 0, 1/10, 1/2, 40⟩, ⟨"b", 1/4, 1/2, 1/10, 1/10, 50⟩,
       ⟨"c", 1/2, 9/10, 1/10, 1/2, 45⟩, ⟨"d", 3/4, 1/10, 1/10, 1/10, 35⟩]
      ⟨50, 50⟩ = false :=
  (short_token_list_not_handwritten _ _ (by decide)).1

/-! ## Extracted invoice data (output contract of both extraction engines) -/

/-- One extracted line item (`line_items` entry). -/
structure LineItem where
  designation : String
  quantity : Option ℚ
  unitPrice : Option ℚ
  totalHT : Option ℚ
  deriving Repr, DecidableEq

/-- The structured fields of an extracted invoice. -/
structure InvoiceFields where
  provider : String
  invoiceNumber : String
  date : String
  totalHT : Option ℚ
  totalTTC : Option ℚ
  vatAmount : Option ℚ
  currency : String
  lineItems : List LineItem
  deriving Repr, DecidableEq

/-- The extraction-engine output: either `{'is_invoice': False}` with no
other fields, or a full invoice record. -/
inductive ExtractedData where
  | notInvoice
  | invoice (fields : InvoiceFields)
  deriving Repr, DecidableEq

/-! ## Analysis Job store (`models/analysis_job.py`, `analysis_service.py`) -/

/-- `settings.JOB_EXPIRATION_SECONDS` (fixed at 3600 in `config.py`). -/
def JOB_EXPIRATION_SECONDS : ℚ := 3600

/-- Job lifecycle states (`AnalysisJob.status`). -/
inductive JobStatus where
  | analyzed
  | processing
  | completed
  | failed
  | expired
  deriving Repr, DecidableEq

/-- Rendering of a status, as interpolated into error messages. -/
def JobStatus.str : JobStatus → String
  | .analyzed => "analyzed"
  | .processing => "processing"
  | .completed => "completed"
  | .failed => "failed"
  | .expired => "expired"

/-- A status is terminal when the job has reached its final outcome. -/
def JobStatus.terminal : JobStatus → Prop
  | .completed => True
  | .failed => True
  | .expired => True
  | _ => False

instance : DecidablePred JobStatus.terminal := by
  intro s
  cases s <;> simp [JobStatus.terminal] <;> infer_instance

/-- The persisted `AnalysisJob` record (the fields the job state machine
touches; wall-clock instants are rationals counting seconds). -/
structure AnalysisJob where
  id : String
  status : JobStatus
  createdAt : ℚ
  expiresAt : Option ℚ
  completedAt : Option ℚ
  resultInvoiceId : Option ℕ
  resultDocumentId : Option ℕ
  processingMethod : Option Pipeline
  processingError : Option String
  scratchFiles : ℕ
  deriving Repr, DecidableEq

/-- `AnalysisJob.is_expired`: a missing deadline counts as expired. -/
def AnalysisJob.isExpired (now : ℚ) (j : AnalysisJob) : Bool :=
  match j.expiresAt with
  | none => true
  | some e => now > e

/-- `AnalysisJob.can_be_processed`. -/
def AnalysisJob.canBeProcessed (now : ℚ) (j : AnalysisJob) : Bool :=
  j.status = .analyzed ∧ ¬j.isExpired now

/-- `AnalysisJob.mark_processing`. -/
def markProcessing (j : AnalysisJob) : AnalysisJob := { j with status := .processing }

/-- `AnalysisJob.mark_completed`. -/
def markCompleted (now : ℚ) (invoiceId documentId : Option ℕ) (method : Option Pipeline)
    (j : AnalysisJob) : AnalysisJob :=
  { j with status := .completed, completedAt := some now,
           resultInvoiceId := invoiceId, resultDocumentId := documentId,
           processingMethod := method }

/-- `AnalysisJob.mark_failed`. -/
def markFailed (now : ℚ) (error : String) (j : AnalysisJob) : AnalysisJob :=
  { j with status := .failed, completedAt := some now, processingError := some error }

/-- `AnalysisJob.mark_expired`. -/
def markExpired (j : AnalysisJob) : AnalysisJob := { j with status := .expired }

/-- Creation of an analysis job by `AnalysisService.analyze_document`:
status `analyzed`, and `set_expiration(settings.JOB_EXPIRATION_SECONDS)`
fixes the deadline `JOB_EXPIRATION_SECONDS` after the creation instant. -/
def createJob (id : String) (now : ℚ) (scratchFiles : ℕ) : AnalysisJob :=
  { id := id, status := .analyzed, createdAt := now,
    expiresAt := some (now + JOB_EXPIRATION_SECONDS), completedAt := none,
    resultInvoiceId := none, resultDocumentId := none,
    processingMethod := none, processingError := none,
    scratchFiles := scratchFiles }

/-- `AnalysisService.get_job_for_processing`: validates that the stored
job (if any) is ready; a past-deadline non-terminal job is marked expired
in place.  Returns ((selected job, error message), stored record). -/
def getJobForProcessing (now : ℚ) :
    Option AnalysisJob → (Option AnalysisJob × Option String) × Option AnalysisJob
  | none => ((none, some "Analysis job not found"), none)
  | some j =>
    if j.status = .completed then
      ((none, some "Job has already been processed"), some j)
    else if j.status = .expired then
      ((none, some "Job has expired. Please re-upload the document."), some j)
    else if j.status = .failed then
      ((none, some ("Job previously failed: " ++ j.processingError.getD "None")), some j)
    else if j.isExpired now then
      ((none, some "Job has expired. Please re-upload the document."), some (markExpired j))
    else if j.status ≠ .analyzed then
      ((none, some ("Job is not ready for processing (status: " ++ j.status.str ++ ")")),
        some j)
    else
      ((some j, none), some j)

/-- `CleanupService.cleanup_expired_jobs` on one record: the sweep
selects jobs with `expires_at < now` and status `analyzed` or
`processing`, deletes their scratch files and marks them expired; every
other record is untouched, and no record is deleted. -/
def sweepSelects (now : ℚ) (j : AnalysisJob) : Bool :=
  (match j.expiresAt with | some e => decide (e < now) | none => false)
    && (j.status = .analyzed || j.status = .processing)

/-- The effect of the sweep on one selected record. -/
def sweepJob (now : ℚ) (j : AnalysisJob) : AnalysisJob :=
  if sweepSelects now j then { markExpired j with scratchFiles := 0 }
  else j

/-- `CleanupService.cleanup_expired_jobs` over the whole store. -/
def cleanupExpiredJobs (now : ℚ) (store : List AnalysisJob) : List AnalysisJob :=
  store.map (sweepJob now)

/-! ## Processing orchestrator (`processing_service.py`) -/

/-- User processing preference (`user_preference` argument). -/
inductive UserPref where
  | loc
  | cloud
  | auto
  deriving Repr, DecidableEq

/-- Outcome of the remote Claude Vision call, covering the exception
cases handled by `_process_with_claude` (the remote service itself is an
external collaborator). -/
inductive ClaudeOutcome where
  | success (data : ExtractedData) (raw : String)
  | notConfiguredError
  | invalidKeyError (msg : String)
  | visionError (msg : String)
  | otherError (msg : String)
  deriving Repr, DecidableEq

/-- Outcome of the local Florence extraction call as seen by
`_process_with_florence` (success, or any raised exception's message). -/
inductive FlorenceOutcome where
  | success (data : ExtractedData) (raw : String)
  | failure (msg : String)
  deriving Repr, DecidableEq

/-- What one pipeline invocation hands back to `process_job`. -/
structure ExtractionResult where
  error : Option String
  requiresApiKey : Bool
  structuredData : Option ExtractedData
  rawResponse : String
  markVaultInvalid : Bool
  deriving Repr, DecidableEq

/-- `ProcessingService._process_with_claude`: a missing key and the two
credential exceptions set `requires_api_key`; an invalid key additionally
marks the stored credential invalid; other errors are plain failures. -/
def processWithClaude (keyAvailable : Bool) (outcome : ClaudeOutcome) : ExtractionResult :=
  if ¬keyAvailable then
    { error := some "Anthropic API key required. Please configure an API key.",
      requiresApiKey := true, structuredData := none, rawResponse := "",
      markVaultInvalid := false }
  else
    match outcome with
    | .success data raw =>
      { error := none, requiresApiKey := false, structuredData := some data,
        rawResponse := raw, markVaultInvalid := false }
    | .notConfiguredError =>
      { error := some "Anthropic API key not configured.",
        requiresApiKey := true, structuredData := none, rawResponse := "",
        markVaultInvalid := false }
    | .invalidKeyError msg =>
      { error := some ("Anthropic API key is invalid: " ++ msg),
        requiresApiKey := true, structuredData := none, rawResponse := "",
        markVaultInvalid := true }
    | .visionError msg =>
      { error := some ("Claude Vision error: " ++ msg),
        requiresApiKey := false, structuredData := none, rawResponse := "",
        markVaultInvalid := false }
    | .otherError msg =>
      { error := some ("Claude processing failed: " ++ msg),
        requiresApiKey := false, structuredData := none, rawResponse := "",
        markVaultInvalid := false }

/-- `ProcessingService._process_with_florence`. -/
def processWithFlorence (outcome : FlorenceOutcome) : ExtractionResult :=
  match outcome with
  | .success data raw =>
    { error := none, requiresApiKey := false, structuredData := some data,
      rawResponse := raw, markVaultInvalid := false }
  | .failure msg =>
    { error := some ("Florence processing failed: " ++ msg),
      requiresApiKey := false, structuredData := none, rawResponse := "",
      markVaultInvalid := false }

/-- The response assembled by `process_job`. -/
structure ProcessResult where
  success : Bool
  invoiceId : Option ℕ
  documentId : Option ℕ
  extractedData : Option ExtractedData
  processingMethod : Pipeline
  error : Option String
  requiresApiKey : Bool
  requiresConfirmation : Bool
  warning : Option String
  suggestedPipeline : Option Pipeline
  deriving Repr, DecidableEq

/-- The initial `result` dict of `process_job`. -/
def initProcessResult (pipeline : Pipeline) : ProcessResult :=
  { success := false, invoiceId := none, documentId := none, extractedData := none,
    processingMethod := pipeline, error := none, requiresApiKey := false,
    requiresConfirmation := false, warning := none, suggestedPipeline := none }

/-- Outcome of `_save_to_database` (ids abstracted by `newId`, the id the
database assigns to the created record). -/
structure SaveIds where
  invoiceId : Option ℕ
  documentId : Option ℕ
  deriving Repr, DecidableEq

/-- Which record `_save_to_database` creates: a non-invoice is archived
as an other-document record, an invoice as an invoice record. -/
def saveRecordIds (data : ExtractedData) (newId : ℕ) : SaveIds :=
  match data with
  | .notInvoice => { invoiceId := none, documentId := some newId }
  | .invoice _ => { invoiceId := some newId, documentId := none }

/-- `ProcessingService.process_job`, as a transition on the stored job.
External effects are parameters: `imagesError` is the failure message of
`get_job_images` (if any), `claudeKeyAvailable` whether
`get_anthropic_key_for_processing` found a key, and the two outcome
arguments the results of the chosen pipeline invocation.  Returns the
response and the stored job record after all commits. -/
def processJob (now : ℚ) (stored : Option AnalysisJob) (pipeline : Pipeline)
    (saveToDb : Bool) (userPref : UserPref) (imagesError : Option String)
    (claudeKeyAvailable : Bool) (claudeOutcome : ClaudeOutcome)
    (florenceOutcome : FlorenceOutcome) (newId : ℕ) :
    ProcessResult × Option AnalysisJob :=
  let result := initProcessResult pipeline
  let ((jobOpt, getError), stored1) := getJobForProcessing now stored
  match jobOpt with
  | none => ({ result with error := getError }, stored1)
  | some job =>
    if userPref = .loc ∧ pipeline = .claude then
      let confirmResult :=
        { result with
            requiresConfirmation := true, warning := some "low_quality_local",
            suggestedPipeline := some Pipeline.claude,
            error := some ("Document quality is low. Local processing may produce poor results. "
              ++ "Consider using Cloud AI for better accuracy.") }
      (confirmResult, stored1)
    else
      let job1 := markProcessing job
      match imagesError with
      | some loadError =>
        ({ result with error := some loadError }, some (markFailed now loadError job1))
      | none =>
        let extraction :=
          match pipeline with
          | .claude => processWithClaude claudeKeyAvailable claudeOutcome
          | .florence => processWithFlorence florenceOutcome
        match extraction.error with
        | some e =>
          if extraction.requiresApiKey then
            ({ result with error := some e, requiresApiKey := true },
              some { job1 with status := .analyzed })
          else
            ({ result with error := some e }, some (markFailed now e job1))
        | none =>
          let data := (extraction.structuredData).getD .notInvoice
          if saveToDb then
            let ids := saveRecordIds data newId
            let okResult :=
              { result with
                  success := true, extractedData := some data,
                  invoiceId := ids.invoiceId, documentId := ids.documentId }
            (okResult, some (markCompleted now ids.invoiceId ids.documentId (some pipeline) job1))
          else
            ({ result with success := true, extractedData := some data },
              some (markCompleted now none none (some pipeline) job1))

/-- Helper: a ready job (analyzed, not past its deadline) passes
`get_job_for_processing` and the stored record is untouched. -/
theorem getJobForProcessing_ready {now : ℚ} {j : AnalysisJob}
    (hj : j.status = .analyzed) (hne : j.isExpired now = false) :
    getJobForProcessing now (some j) = ((some j, none), some j) := by
  simp only [getJobForProcessing]
  rw [hj, hne]
  simp

/-- Helper: reverting the processing flag of a job that was analyzed
reproduces the original record. -/
theorem revert_processing_eq {j : AnalysisJob} (hj : j.status = .analyzed) :
    ({ markProcessing j with status := .analyzed } : AnalysisJob) = j := by
  cases j
  simp_all [markProcessing]

/-- C2.  Job-store invariants: every created job expires strictly after
its creation; no store operation (job validation/begin-processing, the
whole process step, or the expiry sweep) moves a job out of a terminal
state; and the normal expiry sweep only marks non-terminal past-deadline
jobs expired and deletes their scratch files, touching nothing else and
never deleting a record. -/
theorem job_store_invariants :
    (∀ (id : String) (t : ℚ) (files : ℕ),
      (createJob id t files).createdAt = t ∧
      (createJob id t files).expiresAt = some (t + JOB_EXPIRATION_SECONDS) ∧
      t < t + JOB_EXPIRATION_SECONDS) ∧
    (∀ (now : ℚ) (j : AnalysisJob), j.status.terminal →
      (getJobForProcessing now (some j)).2 = some j ∧
      (∀ pipeline saveToDb userPref imagesError key co fo newId,
        (processJob now (some j) pipeline saveToDb userPref imagesError
          key co fo newId).2 = some j) ∧
      sweepJob now j = j) ∧
    (∀ (now : ℚ) (store : List AnalysisJob),
      (cleanupExpiredJobs now store).length = store.length) ∧
    (∀ (now : ℚ) (j : AnalysisJob),
      (sweepJob now j).id = j.id ∧
      (sweepSelects now j = true →
        ¬j.status.terminal ∧ (∃ e, j.expiresAt = some e ∧ e < now) ∧
        (sweepJob now j).status = .expired ∧ (sweepJob now j).scratchFiles = 0) ∧
      (sweepSelects now j = false → sweepJob now j = j)) := by
  refine ⟨?_, ?_, ?_, ?_⟩
  · intro id t files
    refine ⟨rfl, rfl, ?_⟩
    have : (0 : ℚ) < JOB_EXPIRATION_SECONDS := by norm_num [JOB_EXPIRATION_SECONDS]
    linarith
  · intro now j hterm
    have hstat : j.status = .completed ∨ j.status = .failed ∨ j.status = .expired := by
      cases h : j.status <;> simp [h, JobStatus.terminal] at hterm ⊢
    have hg : (getJobForProcessing now (some j)).2 = some j := by
      rcases hstat with h | h | h <;>
        · simp only [getJobForProcessing]
          rw [h]
          simp
    refine ⟨hg, ?_, ?_⟩
    · intro pipeline saveToDb userPref imagesError key co fo newId
      unfold processJob
      rcases hstat with h | h | h <;>
        · simp only [getJobForProcessing]
          rw [h]
          simp
    · unfold sweepJob sweepSelects
      rcases hstat with h | h | h <;> · rw [h]; simp
  · intro now store
    unfold cleanupExpiredJobs
    exact store.length_map _
  · intro now j
    refine ⟨?_, ?_, ?_⟩
    · unfold sweepJob
      split_ifs <;> simp [markExpired]
    · intro hsel
      have hj : sweepJob now j = { markExpired j with scratchFiles := 0 } := by
        unfold sweepJob
        rw [hsel]
        simp
      unfold sweepSelects at hsel
      simp only [Bool.and_eq_true, Bool.or_eq_true, decide_eq_true_eq] at hsel
      obtain ⟨hdl, hst⟩ := hsel
      refine ⟨?_, ?_, ?_, ?_⟩
      · rcases hst with h | h <;> simp [h, JobStatus.terminal]
      · cases he : j.expiresAt with
        | none => rw [he] at hdl; simp at hdl
        | some e =>
          rw [he] at hdl
          simp only [decide_eq_true_eq] at hdl
          exact ⟨e, rfl, hdl⟩
      · rw [hj]; simp [markExpired]
      · rw [hj]
    · intro hsel
      unfold sweepJob
      rw [hsel]
      simp

/-- A concrete completed job used to witness the terminal-state clauses. -/
def sampleCompletedJob : AnalysisJob :=
  { id := "job-1", status := .completed, createdAt := 0, expiresAt := some 3600,
    completedAt := some 10, resultInvoiceId := some 1, resultDocumentId := none,
    processingMethod := some .florence, processingError := none, scratchFiles := 3 }

/-- Witness for `job_store_invariants` at concrete inputs: a freshly
created job expires one hour after creation, and a completed job is
untouched by validation and by the sweep. -/
theorem job_store_invariants_witness :
    (createJob "job-0" 100 2).expiresAt = some (100 + JOB_EXPIRATION_SECONDS) ∧
    (getJobForProcessing 9999 (some sampleCompletedJob)).2 = some sampleCompletedJob ∧
    sweepJob 9999 sampleCompletedJob = sampleCompletedJob :=
  ⟨(job_store_invariants.1 "job-0" 100 2).2.1,
   (job_store_invariants.2.1 9999 sampleCompletedJob (by decide)).1,
   (job_store_invariants.2.1 9999 sampleCompletedJob (by decide)).2.2⟩

/-- C3.  On the cloud pipeline, a missing or rejected credential reverts
the job from `processing` back to `analyzed` (so the same job id remains
processable), while any other extraction error marks the job failed with
the error text recorded. -/
theorem credential_failure_reverts_job
    (now : ℚ) (j : AnalysisJob) (saveToDb : Bool) (userPref : UserPref)
    (key : Bool) (co : ClaudeOutcome) (fo : FlorenceOutcome) (newId : ℕ)
    (hj : j.status = .analyzed) (hne : j.isExpired now = false)
    (hpref : userPref ≠ .loc) :
    ((key = false ∨ co = .notConfiguredError ∨ (∃ m, co = .invalidKeyError m)) →
      (processJob now (some j) .claude saveToDb userPref none key co fo newId).1.requiresApiKey
          = true ∧
      (processJob now (some j) .claude saveToDb userPref none key co fo newId).1.success
          = false ∧
      (processJob now (some j) .claude saveToDb userPref none key co fo newId).2 = some j ∧
      j.canBeProcessed now = true) ∧
    (∀ m, key = true → co = .visionError m →
      (processJob now (some j) .claude saveToDb userPref none key co fo newId).2 =
        some (markFailed now ("Claude Vision error: " ++ m) (markProcessing j)) ∧
      (markFailed now ("Claude Vision error: " ++ m) (markProcessing j)).status = .failed ∧
      (markFailed now ("Claude Vision error: " ++ m) (markProcessing j)).processingError =
        some ("Claude Vision error: " ++ m)) ∧
    (∀ m, key = true → co = .otherError m →
      (processJob now (some j) .claude saveToDb userPref none key co fo newId).2 =
        some (markFailed now ("Claude processing failed: " ++ m) (markProcessing j))) := by
  have hrevert : ({ markProcessing j with status := .analyzed } : AnalysisJob) = j :=
    revert_processing_eq hj
  have hcbp : j.canBeProcessed now = true := by
    unfold AnalysisJob.canBeProcessed
    rw [hj, hne]
    simp
  refine ⟨?_, ?_, ?_⟩
  · intro hcase
    unfold processJob
    rw [getJobForProcessing_ready hj hne]
    rcases hcase with hk | hc | ⟨m, hc⟩
    · subst hk
      simp [hpref, processWithClaude, initProcessResult, hrevert, hcbp]
    · subst hc
      cases key <;>
        simp [hpref, processWithClaude, initProcessResult, hrevert, hcbp]
    · subst hc
      cases key <;>
        simp [hpref, processWithClaude, initProcessResult, hrevert, hcbp]
  · intro m hk hc
    subst hk hc
    refine ⟨?_, rfl, rfl⟩
    unfold processJob
    rw [getJobForProcessing_ready hj hne]
    simp [hpref, processWithClaude, initProcessResult]
  · intro m hk hc
    subst hk hc
    unfold processJob
    rw [getJobForProcessing_ready hj hne]
    simp [hpref, processWithClaude, initProcessResult]

/-- A concrete analyzed job used to witness the processing claims. -/
def sampleAnalyzedJob : AnalysisJob :=
  { id := "job-2", status := .analyzed, createdAt := 0, expiresAt := some 3600,
    completedAt := none, resultInvoiceId := none, resultDocumentId := none,
    processingMethod := none, processingError := none, scratchFiles := 2 }

/-- Witness for `credential_failure_reverts_job`: with no credential, a
concrete analyzed job is reverted to `analyzed` and stays processable. -/
theorem credential_failure_reverts_job_witness :
    (processJob 5 (some sampleAnalyzedJob) .claude true .auto none false
        .notConfiguredError (.failure "x") 7).2 = some sampleAnalyzedJob ∧
    sampleAnalyzedJob.canBeProcessed 5 = true :=
  have h := (credential_failure_reverts_job 5 sampleAnalyzedJob true .auto false
    .notConfiguredError (.failure "x") 7 (by decide) (by decide) (by decide)).1
    (Or.inl rfl)
  ⟨h.2.2.1, h.2.2.2⟩

/-! ## Credential vault (`api_key_service.py`, `core/config.py`) -/

/-- Modelled from the spec: the vault key of the external Fernet cipher
(the `cryptography` library, not part of this repository); an opaque
symmetric key, identified here by a key id. -/
structure FernetKey where
  keyId : ℕ
  deriving Repr, DecidableEq

/-- Modelled from the spec: a Fernet ciphertext token; authenticated, so
it records which key produced it. -/
structure FernetToken where
  producedBy : ℕ
  payload : String
  deriving Repr, DecidableEq

/-- Modelled from the spec: Fernet encryption (`Fernet.encrypt`). -/
def fernetEncrypt (k : FernetKey) (plaintext : String) : FernetToken :=
  { producedBy := k.keyId, payload := plaintext }

/-- Modelled from the spec: Fernet decryption (`Fernet.decrypt`), which
returns the original plaintext under the producing key and raises
`InvalidToken` (here: `none`) under any other key; authenticated
encryption never silently yields a wrong plaintext. -/
def fernetDecrypt (k : FernetKey) (t : FernetToken) : Option String :=
  if t.producedBy = k.keyId then some t.payload else none

/-- `ApiKeyService._encrypt`. -/
def serviceEncrypt (k : FernetKey) (plaintext : String) : FernetToken :=
  fernetEncrypt k plaintext

/-- The message of the `ValueError` raised by `ApiKeyService._decrypt`. -/
def DECRYPTION_FAILED_MSG : String :=
  "Failed to decrypt API key. Encryption key may have changed."

/-- `ApiKeyService._decrypt`: an `InvalidToken` from the cipher is
re-raised as a decryption-failure error. -/
def serviceDecrypt (k : FernetKey) (t : FernetToken) : Except String String :=
  match fernetDecrypt k t with
  | some plaintext => .ok plaintext
  | none => .error DECRYPTION_FAILED_MSG

/-- The persisted `ApiKey` record (`models/api_key.py`). -/
structure ApiKeyRecord where
  provider : String
  encryptedKey : FernetToken
  keyPref : String
  isValid : Bool
  validationError : Option String
  lastValidatedAt : Option ℚ
  deriving Repr, DecidableEq

/-- `ApiKey.update_validation`. -/
def updateValidation (now : ℚ) (isValid : Bool) (error : Option String)
    (r : ApiKeyRecord) : ApiKeyRecord :=
  { r with isValid := isValid, validationError := error, lastValidatedAt := some now }

/-- `ApiKeyService._get_key_prefix`. -/
def getKeyPref (key : String) : String :=
  if key.length > 10 then pyTake key 10 ++ "..." else pyTake key 4 ++ "..."

/-- The `db.query(ApiKey).filter(ApiKey.provider == provider).first()` lookup. -/
def findKeyRecord (provider : String) (db : List ApiKeyRecord) : Option ApiKeyRecord :=
  db.find? (fun r => r.provider = provider)

/-- `ApiKeyService.get_api_key`: decrypts the stored ciphertext; a
decryption failure is caught and reported as an absent key. -/
def getApiKey (vk : FernetKey) (provider : String) (db : List ApiKeyRecord) :
    Option String :=
  match findKeyRecord provider db with
  | none => none
  | some r =>
    match serviceDecrypt vk r.encryptedKey with
    | .ok plaintext => some plaintext
    | .error _ => none

/-- Result dictionary of `store_api_key`. -/
structure StoreResult where
  success : Bool
  valid : Bool
  error : Option String
  provider : String
  deriving Repr, DecidableEq

/-- Result dictionary of `validate_api_key`. -/
structure ValidateResult where
  configured : Bool
  valid : Bool
  error : Option String
  deriving Repr, DecidableEq

/-- The create-or-update step of `store_api_key`: an existing provider
record gets the new ciphertext and prefix and its validity flag reset to
true; otherwise a fresh record is inserted. -/
def upsertApiKey (provider : String) (tok : FernetToken) (pref : String)
    (db : List ApiKeyRecord) : List ApiKeyRecord :=
  if (findKeyRecord provider db).isSome then
    db.map (fun r =>
      if r.provider = provider then
        { r with encryptedKey := tok, keyPref := pref, isValid := true,
                 validationError := none }
      else r)
  else
    db ++ [{ provider := provider, encryptedKey := tok, keyPref := pref,
             isValid := true, validationError := none, lastValidatedAt := none }]

/-- `ApiKeyService.validate_api_key`.  The remote provider call of
`_validate_anthropic_key` is an external collaborator; its verdict is the
`remoteValid`/`remoteError` input pair. -/
def validateApiKey (now : ℚ) (vk : FernetKey) (provider : String)
    (db : List ApiKeyRecord) (remoteValid : Bool) (remoteError : Option String) :
    ValidateResult × List ApiKeyRecord :=
  match getApiKey vk provider db with
  | none =>
    ({ configured := false, valid := false, error := some "API key not configured" }, db)
  | some _ =>
    let res : ValidateResult :=
      if provider = "anthropic" then
        { configured := true, valid := remoteValid, error := remoteError }
      else
        { configured := true, valid := true, error := none }
    (res, db.map (fun r =>
      if r.provider = provider then updateValidation now res.valid res.error r else r))

/-- `ApiKeyService.store_api_key`: format validation (minimum length,
provider-specific prefix) gates every database access; a passing key is
encrypted and upserted; optionally the stored key is then re-validated
against the provider. -/
def storeApiKey (now : ℚ) (vk : FernetKey) (provider key : String)
    (db : List ApiKeyRecord) (validate : Bool) (remoteValid : Bool)
    (remoteError : Option String) : StoreResult × List ApiKeyRecord :=
  if key.length < 10 then
    ({ success := false, valid := false, error := some "API key is too short",
       provider := provider }, db)
  else if provider = "anthropic" ∧ ¬strStartsWith key "sk-ant-" then
    ({ success := false, valid := false,
       error := some ("Invalid Anthropic API key format. Key should start with "
         ++ "\"sk-ant-\""),
       provider := provider }, db)
  else
    let db2 := upsertApiKey provider (fernetEncrypt vk key) (getKeyPref key) db
    if validate then
      let (vres, db3) := validateApiKey now vk provider db2 remoteValid remoteError
      ({ success := true, valid := vres.valid, error := vres.error,
         provider := provider }, db3)
    else
      ({ success := true, valid := true, error := none, provider := provider }, db2)

/-! ## Vault key rotation (`core/config.py`, `main.py`) -/

/-- `KEY_ROTATION_DAYS` (fixed constant in `config.py`). -/
def KEY_ROTATION_DAYS : ℚ := 30

/-- The `encryption.meta.json` sidecar file contents. -/
structure VaultMeta where
  createdAt : Option ℚ
  version : ℕ
  lastRotation : Option ℚ
  deriving Repr, DecidableEq

/-- The vault-relevant persisted state: the `encryption.key` file, its
metadata sidecar, the in-process `settings.API_KEY_ENCRYPTION_KEY`, and
the credential table. -/
structure VaultState where
  keyFile : Option FernetKey
  meta : VaultMeta
  activeKey : FernetKey
  credentials : List ApiKeyRecord
  deriving Repr, DecidableEq

/-- `Settings._key_needs_rotation`: true when the recorded creation
instant is more than `KEY_ROTATION_DAYS` days in the past. -/
def keyNeedsRotation (now : ℚ) (st : VaultState) : Bool :=
  match st.meta.createdAt with
  | none => false
  | some c => now - c > KEY_ROTATION_DAYS * 86400

/-- `check_and_rotate_encryption_key` (`config.py`): when rotation is
due, the freshly generated key is written to the persisted key file and
installed as the active key, the metadata is updated, and the pair
(old key, new key) is returned for the caller to re-encrypt stored
credentials — the function itself re-encrypts nothing. -/
def checkAndRotateEncryptionKey (now : ℚ) (freshKey : FernetKey) (st : VaultState) :
    (Bool × Option FernetKey × Option FernetKey) × VaultState :=
  if ¬keyNeedsRotation now st then ((false, none, none), st)
  else
    match st.keyFile with
    | none => ((false, none, none), st)
    | some oldKey =>
      let st2 : VaultState :=
        { st with
            keyFile := some freshKey,
            meta := { createdAt := some now, version := st.meta.version + 1,
                      lastRotation := some now },
            activeKey := freshKey }
      ((true, some oldKey, some freshKey), st2)

/-- The key-rotation step of the startup `lifespan` hook in `main.py`:
it invokes `api_key_service.check_and_perform_key_rotation(db)`, but
`ApiKeyService` defines no such method, so the call raises
`AttributeError` before touching any state, and the surrounding
`except Exception` block swallows it.  The vault state is left unchanged
and no credential is ever re-encrypted. -/
def lifespanKeyRotationStep (st : VaultState) : VaultState := st

/-- C5.  Round-trip: decrypting under the producing vault key returns
the original plaintext exactly; under a different vault key the service
raises the decryption-failure error and never returns a plaintext, and
the retrieval path then reports the credential as absent rather than
returning garbage. -/
theorem credential_encryption_roundtrip (k k2 : FernetKey) (plaintext : String)
    (hne : k2.keyId ≠ k.keyId) :
    serviceDecrypt k (serviceEncrypt k plaintext) = .ok plaintext ∧
    serviceDecrypt k2 (serviceEncrypt k plaintext) = .error DECRYPTION_FAILED_MSG ∧
    (∀ other, serviceDecrypt k2 (serviceEncrypt k plaintext) = .ok other → False) ∧
    (∀ (provider : String) (r : ApiKeyRecord),
      r.encryptedKey = serviceEncrypt k plaintext → r.provider = provider →
      getApiKey k provider [r] = some plaintext ∧ getApiKey k2 provider [r] = none) := by
  refine ⟨?_, ?_, ?_, ?_⟩
  · simp [serviceDecrypt, serviceEncrypt, fernetDecrypt, fernetEncrypt]
  · simp [serviceDecrypt, serviceEncrypt, fernetDecrypt, fernetEncrypt, Ne.symm hne]
  · intro other h
    simp [serviceDecrypt, serviceEncrypt, fernetDecrypt, fernetEncrypt, Ne.symm hne] at h
  · intro provider r hr hp
    unfold getApiKey findKeyRecord
    constructor
    · simp [hp, hr, serviceDecrypt, serviceEncrypt, fernetDecrypt, fernetEncrypt]
    · simp [hp, hr, serviceDecrypt, serviceEncrypt, fernetDecrypt, fernetEncrypt, Ne.symm hne]

/-- Witness for `credential_encryption_roundtrip` at two concrete keys. -/
theorem credential_encryption_roundtrip_witness :
    serviceDecrypt ⟨7⟩ (serviceEncrypt ⟨7⟩ "sk-ant-api03-secret") = .ok "sk-ant-api03-secret" ∧
    serviceDecrypt ⟨8⟩ (serviceEncrypt ⟨7⟩ "sk-ant-api03-secret") = .error DECRYPTION_FAILED_MSG :=
  have h := credential_encryption_roundtrip ⟨7⟩ ⟨8⟩ "sk-ant-api03-secret" (by decide)
  ⟨h.1, h.2.1⟩

/-- C9.  A credential that fails the provider format check (minimum
length, or the anthropic `sk-ant-` prefix) is rejected and the stored
table is untouched; a passing credential is upserted with the new
ciphertext and the validity flag reset to true, other providers
untouched. -/
theorem store_key_format_gate (now : ℚ) (vk : FernetKey) (provider key : String)
    (db : List ApiKeyRecord) :
    ((key.length < 10 ∨ (provider = "anthropic" ∧ ¬strStartsWith key "sk-ant-")) →
      ∀ validate remoteValid remoteError,
        (storeApiKey now vk provider key db validate remoteValid remoteError).1.success
            = false ∧
        (storeApiKey now vk provider key db validate remoteValid remoteError).2 = db) ∧
    (10 ≤ key.length → (provider = "anthropic" → strStartsWith key "sk-ant-" = true) →
      ∀ remoteValid remoteError,
        (storeApiKey now vk provider key db false remoteValid remoteError).1.success
            = true ∧
        (storeApiKey now vk provider key db false remoteValid remoteError).2 =
          upsertApiKey provider (fernetEncrypt vk key) (getKeyPref key) db) ∧
    (∀ r ∈ upsertApiKey provider (fernetEncrypt vk key) (getKeyPref key) db,
      r.provider = provider →
        r.encryptedKey = fernetEncrypt vk key ∧ r.isValid = true ∧
        r.validationError = none) ∧
    (∃ r ∈ upsertApiKey provider (fernetEncrypt vk key) (getKeyPref key) db,
      r.provider = provider) ∧
    (∀ r ∈ db, r.provider ≠ provider →
      r ∈ upsertApiKey provider (fernetEncrypt vk key) (getKeyPref key) db) := by
  refine ⟨?_, ?_, ?_, ?_, ?_⟩
  · rintro (hshort | ⟨hanth, hpref⟩) validate remoteValid remoteError
    · constructor <;> · unfold storeApiKey; rw [if_pos hshort]
    · by_cases hs : key.length < 10
      · constructor <;> · unfold storeApiKey; rw [if_pos hs]
      · constructor <;> · unfold storeApiKey; rw [if_neg hs, if_pos ⟨hanth, hpref⟩]
  · intro hlen hpref remoteValid remoteError
    have h1 : ¬key.length < 10 := by omega
    have h2 : ¬(provider = "anthropic" ∧ ¬strStartsWith key "sk-ant-") := by
      rintro ⟨ha, hb⟩
      exact hb (hpref ha)
    constructor <;>
      · unfold storeApiKey
        rw [if_neg h1, if_neg h2]
        simp
  · intro r hr hprov
    unfold upsertApiKey at hr
    by_cases hex : (findKeyRecord provider db).isSome
    · rw [if_pos hex] at hr
      obtain ⟨r0, _hr0, hmap⟩ := List.mem_map.mp hr
      by_cases h0 : r0.provider = provider
      · rw [if_pos h0] at hmap
        rw [← hmap]
        exact ⟨rfl, rfl, rfl⟩
      · rw [if_neg h0] at hmap
        rw [← hmap] at hprov
        exact absurd hprov h0
    · rw [if_neg hex] at hr
      rcases List.mem_append.mp hr with hin | hnew
      · exfalso
        have hnone : findKeyRecord provider db = none := by
          cases h : findKeyRecord provider db
          · rfl
          · rw [h] at hex; simp at hex
        have := List.find?_eq_none.mp hnone r hin
        simp [hprov] at this
      · simp at hnew
        rw [hnew]
        exact ⟨rfl, rfl, rfl⟩
  · unfold upsertApiKey
    by_cases hex : (findKeyRecord provider db).isSome
    · rw [if_pos hex]
      obtain ⟨r0, hr0⟩ := Option.isSome_iff_exists.mp hex
      have hmem : r0 ∈ db := List.mem_of_find?_eq_some hr0
      have hp : r0.provider = provider := by
        have := List.find?_some hr0
        simpa using this
      refine ⟨_, List.mem_map.mpr ⟨r0, hmem, rfl⟩, ?_⟩
      rw [if_pos hp]
      exact hp
    · rw [if_neg hex]
      refine ⟨{ provider := provider, encryptedKey := fernetEncrypt vk key,
                keyPref := getKeyPref key, isValid := true, validationError := none,
                lastValidatedAt := none }, ?_, rfl⟩
      exact List.mem_append.mpr (Or.inr (List.mem_singleton.mpr rfl))
  · intro r hmem hne
    unfold upsertApiKey
    by_cases hex : (findKeyRecord provider db).isSome
    · rw [if_pos hex]
      refine List.mem_map.mpr ⟨r, hmem, ?_⟩
      rw [if_neg hne]
    · rw [if_neg hex]
      exact List.mem_append.mpr (Or.inl hmem)

/-- Witness for `store_key_format_gate`: a malformed anthropic key is
rejected without touching a one-record table, and a well-formed key
replaces the stored ciphertext with its validity flag reset. -/
theorem store_key_format_gate_witness :
    (storeApiKey 0 ⟨7⟩ "anthropic" "bad-key-123456" [] false true none).2 = [] ∧
    (storeApiKey 0 ⟨7⟩ "anthropic" "sk-ant-api03-ok" [] false true none).1.success = true :=
  have hbad := (store_key_format_gate 0 ⟨7⟩ "anthropic" "bad-key-123456" []).1
    (Or.inr ⟨rfl, by decide⟩) false true none
  have hok := ((store_key_format_gate 0 ⟨7⟩ "anthropic" "sk-ant-api03-ok" []).2.1
    (by decide) (fun _ => by decide) true none)
  ⟨hbad.2, hok.1⟩

/-- The vault state used to exhibit the rotation defect: a key 31 days
old and one credential encrypted under it. -/
def rotSampleState : VaultState :=
  { keyFile := some ⟨1⟩,
    meta := { createdAt := some 0, version := 1, lastRotation := none },
    activeKey := ⟨1⟩,
    credentials := [{ provider := "anthropic",
                      encryptedKey := fernetEncrypt ⟨1⟩ "sk-ant-api03-secret",
                      keyPref := "sk-ant-api...", isValid := true,
                      validationError := none, lastValidatedAt := none }] }

/-- C6 (defect exhibit).  With the sample vault state 31 days after key
creation, rotation is due, yet the startup hook performs no rotation at
all (it calls a method that does not exist and swallows the
`AttributeError`); and the only rotation primitive in the code base,
`check_and_rotate_encryption_key`, persists the new key in the key file
while the stored credential is still decryptable only under the
discarded old key — no caller re-encrypts it. -/
theorem rotation_leaves_credentials_undecryptable :
    keyNeedsRotation (31 * 86400) rotSampleState = true ∧
    lifespanKeyRotationStep rotSampleState = rotSampleState ∧
    (checkAndRotateEncryptionKey (31 * 86400) ⟨2⟩ rotSampleState).2.keyFile = some ⟨2⟩ ∧
    getApiKey ⟨2⟩ "anthropic"
      (checkAndRotateEncryptionKey (31 * 86400) ⟨2⟩ rotSampleState).2.credentials = none ∧
    getApiKey ⟨1⟩ "anthropic"
      (checkAndRotateEncryptionKey (31 * 86400) ⟨2⟩ rotSampleState).2.credentials
        = some "sk-ant-api03-secret" := by
  have hdue : keyNeedsRotation (31 * 86400) rotSampleState = true := by
    simp only [keyNeedsRotation, rotSampleState, KEY_ROTATION_DAYS, decide_eq_true_eq]
    norm_num
  refine ⟨hdue, rfl, ?_, ?_, ?_⟩ <;>
    · unfold checkAndRotateEncryptionKey
      rw [hdue]
      simp [rotSampleState, getApiKey, findKeyRecord, serviceDecrypt, fernetDecrypt,
        fernetEncrypt]

/-! ## A small regex interpreter

The local extractor (`florence_service.py`) is written around Python
`re` patterns.  The fragment of `re` it uses (literals, character
classes, alternation, greedy bounded/unbounded repetition, one capture
group, `^`, `$`, `\b`, and one lookahead) is interpreted here over
character lists, with Python's leftmost, greedy, backtracking search
semantics. -/

/-- Abstract syntax of the regex fragment. -/
inductive RE where
  | eps
  | chr (c : Char)
  | cls (f : Char → Bool)
  | seq (a b : RE)
  | alt (a b : RE)
  | rep (r : RE) (lo : ℕ) (hi : Option ℕ)
  | grp (r : RE)
  | la (r : RE)
  | bos
  | eos
  | bnd

/-- End state of a successful match: the remainder of the input and the
group-1 capture, if any. -/
structure MatchEnd where
  restAfter : List Char
  cap : Option (List Char)

/-- Python `\w` (restricted to ASCII text plus accented letters, which
Python treats as word characters). -/
def isWordChar (c : Char) : Bool :=
  c.isAlpha || c.isDigit || c = '_' || decide (128 ≤ c.toNat)

/-- Python `\s` (ASCII whitespace). -/
def isSpaceChar (c : Char) : Bool :=
  c = ' ' || c = '\t' || c = '\n' || c = '\r' || c = '\x0b' || c = '\x0c'

/-- Word-boundary test between the previous character and the rest. -/
def atBoundary (prev : Option Char) (rest : List Char) : Bool :=
  let l := match prev with | none => false | some c => isWordChar c
  let r := match rest with | [] => false | c :: _ => isWordChar c
  l != r

/-- Structural size of a pattern, used to budget the matcher fuel. -/
def reSize : RE → ℕ
  | .eps => 1
  | .chr _ => 1
  | .cls _ => 1
  | .seq a b => reSize a + reSize b + 1
  | .alt a b => reSize a + reSize b + 1
  | .rep r _ _ => reSize r + 1
  | .grp r => reSize r + 1
  | .la r => reSize r + 1
  | .bos => 1
  | .eos => 1
  | .bnd => 1

/-- Backtracking matcher in continuation-passing style.  `fuel` bounds
the depth of the recursion (structurally, so that concrete matches
evaluate by kernel reduction); a budget of input length plus pattern
size suffices for the patterns used here, all of whose repeated bodies
consume input. -/
def reMatch (fuel : ℕ) (r : RE) (rest : List Char) (prev : Option Char)
    (cap : Option (List Char))
    (k : List Char → Option Char → Option (List Char) → Option MatchEnd) :
    Option MatchEnd :=
  match fuel with
  | 0 => none
  | fuel + 1 =>
    match r with
    | .eps => k rest prev cap
    | .chr c =>
      match rest with
      | [] => none
      | x :: xs => if x = c then k xs (some x) cap else none
    | .cls f =>
      match rest with
      | [] => none
      | x :: xs => if f x then k xs (some x) cap else none
    | .seq a b =>
      reMatch fuel a rest prev cap (fun r2 p2 c2 => reMatch fuel b r2 p2 c2 k)
    | .alt a b =>
      match reMatch fuel a rest prev cap k with
      | some res => some res
      | none => reMatch fuel b rest prev cap k
    | .grp r =>
      reMatch fuel r rest prev cap (fun r2 p2 _ =>
        k r2 p2 (some (rest.take (rest.length - r2.length))))
    | .la r =>
      match reMatch fuel r rest prev cap (fun r2 _p2 c2 => some ⟨r2, c2⟩) with
      | some _ => k rest prev cap
      | none => none
    | .bos => if prev = none then k rest prev cap else none
    | .eos => if rest = [] then k rest prev cap else none
    | .bnd => if atBoundary prev rest then k rest prev cap else none
    | .rep r lo hi =>
      if hi = some 0 then k rest prev cap
      else
        match reMatch fuel r rest prev cap (fun r2 p2 c2 =>
            reMatch fuel (.rep r (lo - 1) (hi.map (fun h => h - 1))) r2 p2 c2 k) with
        | some res => some res
        | none => if lo = 0 then k rest prev cap else none

/-- One successful `re.search`: the text before the match, the matched
text, the capture, and the remainder. -/
structure SearchRes where
  matched : List Char
  cap : Option (List Char)
  restAfter : List Char

/-- `re.search` from a given suffix (with the character preceding it),
trying successive start positions left to right. -/
def reSearchFrom (fuel : ℕ) (r : RE) (rest : List Char) (prev : Option Char) :
    Option SearchRes :=
  match reMatch (rest.length + reSize r + 2) r rest prev none
      (fun r2 _p2 c2 => some ⟨r2, c2⟩) with
  | some res =>
    some { matched := rest.take (rest.length - res.restAfter.length),
           cap := res.cap, restAfter := res.restAfter }
  | none =>
    match fuel, rest with
    | _, [] => none
    | 0, _ => none
    | f + 1, c :: cs => reSearchFrom f r cs (some c)

/-- `re.search` over a whole string: `some` on a match. -/
def reSearch (r : RE) (s : List Char) : Option SearchRes :=
  reSearchFrom s.length r s none

/-- Whether `re.search` finds a match. -/
def reTest (r : RE) (s : List Char) : Bool := (reSearch r s).isSome

/-- `re.findall` for a single-group pattern: the list of group captures
of successive non-overlapping matches (scanning resumes after each
match; an empty match advances by one character). -/
def reFindAll (fuel : ℕ) (r : RE) (rest : List Char) (prev : Option Char) :
    List (List Char) :=
  match fuel with
  | 0 => []
  | f + 1 =>
    match reSearchFrom rest.length r rest prev with
    | none => []
    | some res =>
      let capture := res.cap.getD res.matched
      if res.restAfter.length < rest.length then
        capture :: reFindAll f r res.restAfter
          (match res.matched.getLast? with
           | some c => some c
           | none => prev)
      else
        match res.restAfter with
        | [] => [capture]
        | c :: cs => capture :: reFindAll f r cs (some c)

/-- `re.findall` over a whole string. -/
def reFindAllStr (r : RE) (s : List Char) : List (List Char) :=
  reFindAll (s.length + 1) r s none

/-! Pattern-building helpers. -/

/-- A regex that never matches. -/
def reFail : RE := .cls (fun _ => false)

/-- Sequence of a list of regexes. -/
def seqList (rs : List RE) : RE := rs.foldr .seq .eps

/-- Ordered alternation of a list of regexes. -/
def altList (rs : List RE) : RE := rs.foldr .alt reFail

/-- Literal string. -/
def lit (s : String) : RE := seqList (s.data.map .chr)

/-- Case-insensitive literal string (ASCII case folding). -/
def litCI (s : String) : RE :=
  seqList (s.data.map (fun c => .cls (fun x => asciiLower x = asciiLower c)))

/-- `\d`. -/
def reDigit : RE := .cls Char.isDigit

/-- `\d{lo,hi}`. -/
def digits (lo : ℕ) (hi : Option ℕ) : RE := .rep reDigit lo hi

/-- `\s*`. -/
def wsStar : RE := .rep (.cls isSpaceChar) 0 none

/-- `\s+`. -/
def wsPlus : RE := .rep (.cls isSpaceChar) 1 none

/-- Greedy `r?`. -/
def reOpt (r : RE) : RE := .alt r .eps

/-- `\.?`. -/
def optDot : RE := reOpt (.chr '.')

/-- A character among the given ones. -/
def oneOf (cs : List Char) : RE := .cls (fun c => cs.contains c)

/-- `.` (any character except a newline). -/
def anyChar : RE := .cls (fun c => c ≠ '\n')

/-- `\bw\b` for a literal word. -/
def wordLit (s : String) : RE := seqList [.bnd, lit s, .bnd]

/-! ## String and number helpers for the local extractor -/

/-- Python `str.strip()` (ASCII whitespace). -/
def pyStrip (s : String) : String :=
  String.mk (((s.data.dropWhile isSpaceChar).reverse.dropWhile isSpaceChar).reverse)

/-- Helper for `re.sub(r"\s+", " ", s)`: collapse whitespace runs. -/
def collapseWsAux : Bool → List Char → List Char
  | _, [] => []
  | inWs, c :: cs =>
    if isSpaceChar c then
      if inWs then collapseWsAux true cs else ' ' :: collapseWsAux true cs
    else c :: collapseWsAux false cs

/-- `re.sub(r"\s+", " ", s)`. -/
def collapseWs (s : String) : String := String.mk (collapseWsAux false s.data)

/-- Split a character list on a separator (Python `str.split(sep)`). -/
def splitOnChar (sep : Char) : List Char → List (List Char)
  | [] => [[]]
  | c :: cs =>
    match splitOnChar sep cs with
    | [] => [[c]]
    | h :: t => if c = sep then [] :: h :: t else (c :: h) :: t

/-- Python `text.split("\n")`. -/
def splitLines (s : String) : List String := (splitOnChar '\n' s.data).map String.mk

/-- Python `" ".join(xs)`. -/
def joinSpace (xs : List String) : String :=
  String.mk (List.intercalate [' '] (xs.map (·.data)))

/-- ASCII upper-casing of one character. -/
def asciiUpper (c : Char) : Char :=
  if 'a' ≤ c ∧ c ≤ 'z' then Char.ofNat (c.toNat - 32) else c

/-- Upper-casing of a whole string. -/
def strUpper (s : String) : String := String.mk (s.data.map asciiUpper)

/-- Python `str.isupper()` for one character (ASCII plus the Latin-1
upper-case letters used in French). -/
def pyIsUpper (c : Char) : Bool :=
  ('A' ≤ c ∧ c ≤ 'Z') || (decide (192 ≤ c.toNat) && decide (c.toNat ≤ 222)
    && decide (c.toNat ≠ 215))

/-- Value of a digit list. -/
def digitsToNat (cs : List Char) : ℕ :=
  cs.foldl (fun a c => a * 10 + (c.toNat - 48)) 0

/-- Value of an integer part and a fraction part. -/
def decToRat (intPart fracPart : List Char) : ℚ :=
  (digitsToNat intPart : ℚ) + (digitsToNat fracPart : ℚ) / (10 ^ fracPart.length)

/-- Python `float()` on strings made of digits and at most one dot. -/
def pyFloat (cs : List Char) : Option ℚ :=
  match splitOnChar '.' cs with
  | [i] => if i ≠ [] ∧ i.all Char.isDigit then some (digitsToNat i) else none
  | [i, f] =>
    if (i ≠ [] ∨ f ≠ []) ∧ i.all Char.isDigit ∧ f.all Char.isDigit then
      some (decToRat i f)
    else none
  | _ => none

/-- `FlorenceService._parse_number`: drop spaces, comma to dot, `float`. -/
def parseNumber (t : String) : Option ℚ :=
  pyFloat ((t.data.filter (· ≠ ' ')).map (fun c => if c = ',' then '.' else c))

/-- The amount-cleaning step of `_find_amounts_in_text`: drop spaces,
comma to dot, collapse multiple dots (`1.234.56` to `1234.56`), `float`. -/
def cleanAmount (cs : List Char) : Option ℚ :=
  let cs2 := (cs.filter (· ≠ ' ')).map (fun c => if c = ',' then '.' else c)
  let parts := splitOnChar '.' cs2
  let cs3 :=
    if parts.length > 2 then
      match parts.reverse with
      | last :: preds => preds.reverse.flatten ++ '.' :: last
      | [] => cs2
    else cs2
  pyFloat cs3

/-- The `re.match(r"^\d+[.,]?\d*$", text)` numeric-token test. -/
def isPyNumberTok (cs : List Char) : Bool :=
  let ds := cs.takeWhile Char.isDigit
  let rest := cs.drop ds.length
  decide (ds ≠ []) &&
    (match rest with
     | [] => true
     | c :: tl => (c = '.' || c = ',') && tl.all Char.isDigit)

/-! ## Table reconstruction (`florence_service.py`,
`_detect_column_headers`, `_assign_values_by_columns`,
`_extract_line_items_improved`) -/

/-- The `y_tolerance` line-grouping constant (0.012). -/
def Y_TOL : ℚ := 12 / 1000

/-- `round(word["y"] / y_tolerance) * y_tolerance`. -/
def yKeyOf (y : ℚ) : ℚ := ((round (y / Y_TOL) : ℤ) : ℚ) * Y_TOL

/-- Append a word to its line group, preserving key insertion order. -/
def addToGroups (k : ℚ) (w : Word) : List (ℚ × List Word) → List (ℚ × List Word)
  | [] => [(k, [w])]
  | (k0, ws) :: t =>
    if k0 = k then (k0, ws ++ [w]) :: t else (k0, ws) :: addToGroups k w t

/-- The `lines_dict` grouping of words by rounded vertical position. -/
def groupByLines (ws : List Word) : List (ℚ × List Word) :=
  ws.foldl (fun gs w => addToGroups (yKeyOf w.y) w gs) []

/-- Stable insertion for the line sort. -/
def insLine (p : ℚ × List Word) : List (ℚ × List Word) → List (ℚ × List Word)
  | [] => [p]
  | q :: qs => if q.1 ≤ p.1 then q :: insLine p qs else p :: q :: qs

/-- `sorted(lines_dict.items(), key=...)` (stable). -/
def sortLinesByY (gs : List (ℚ × List Word)) : List (ℚ × List Word) :=
  gs.foldl (fun acc g => insLine g acc) []

/-- Stable insertion for the within-line word sort. -/
def insWordByX (w : Word) : List Word → List Word
  | [] => [w]
  | v :: vs => if v.x ≤ w.x then v :: insWordByX w vs else w :: v :: vs

/-- `line_words.sort(key=lambda w: w["x"])` (stable). -/
def sortWordsByX (ws : List Word) : List Word :=
  ws.foldl (fun acc w => insWordByX w acc) []

/-- A numeric token with its position (`numbers_with_pos` entry). -/
structure NumPos where
  value : Option ℚ
  x : ℚ
  deriving Repr, DecidableEq

/-- Stable insertion for the numeric-token sort. -/
def insNumByX (n : NumPos) : List NumPos → List NumPos
  | [] => [n]
  | m :: ms => if m.x ≤ n.x then m :: insNumByX n ms else n :: m :: ms

/-- `numbers_with_pos.sort(key=lambda n: n["x"])` (stable). -/
def sortNumsByX (ns : List NumPos) : List NumPos :=
  ns.foldl (fun acc n => insNumByX n acc) []

/-- `column_patterns["designation"]`. -/
def designationPatterns : List RE :=
  [wordLit "désignation", wordLit "description", wordLit "libellé", wordLit "libelle",
   wordLit "article", wordLit "produit", wordLit "service", wordLit "prestation",
   wordLit "item", wordLit "detail", wordLit "détail"]

/-- `column_patterns["quantity"]`. -/
def quantityPatterns : List RE :=
  [wordLit "quantité", wordLit "quantite", wordLit "qté", wordLit "qte", wordLit "qty",
   wordLit "nombre", wordLit "nb", wordLit "quantity",
   seqList [.bnd, lit "unit", reOpt (.chr 's'), .bnd]]

/-- `column_patterns["unit_price"]`. -/
def unitPricePatterns : List RE :=
  [seqList [.bnd, lit "prix", wsStar, lit "unitaire", .bnd],
   seqList [.bnd, .chr 'p', optDot, wsStar, .chr 'u', optDot, .bnd],
   wordLit "pu",
   seqList [.bnd, lit "prix", wsStar, lit "unit", optDot, .bnd],
   seqList [.bnd, lit "unit", wsStar, lit "price", .bnd],
   wordLit "tarif", wordLit "prix", wordLit "rate",
   wordLit "unitaire", wordLit "unit"]

/-- `column_patterns["total"]`. -/
def totalPatterns : List RE :=
  [seqList [.bnd, lit "total", wsStar, .chr 'h', optDot, .chr 't', optDot, .bnd],
   seqList [.bnd, lit "montant", wsStar, .chr 'h', optDot, .chr 't', optDot, .bnd],
   wordLit "total", wordLit "montant", wordLit "amount", wordLit "somme", wordLit "net"]

/-- `column_patterns["vat"]`. -/
def vatPatterns : List RE :=
  [wordLit "tva", wordLit "vat", wordLit "taxe", wordLit "tax"]

/-- Whether any pattern of the list matches the text. -/
def anyMatches (ps : List RE) (s : List Char) : Bool := ps.any (fun p => reTest p s)

/-- The detected `column_positions` dictionary. -/
structure ColumnPositions where
  designation : Option ℚ := none
  quantity : Option ℚ := none
  unitPrice : Option ℚ := none
  total : Option ℚ := none
  vat : Option ℚ := none
  deriving Repr, DecidableEq

/-- Number of detected columns (`len(column_positions)`). -/
def ColumnPositions.count (cp : ColumnPositions) : ℕ :=
  ([cp.designation, cp.quantity, cp.unitPrice, cp.total, cp.vat].filter
    Option.isSome).length

/-- `matches_found`: how many column kinds have a pattern matching the
header line text. -/
def countColTypes (lineText : List Char) : ℕ :=
  ([anyMatches designationPatterns lineText, anyMatches quantityPatterns lineText,
    anyMatches unitPricePatterns lineText, anyMatches totalPatterns lineText,
    anyMatches vatPatterns lineText].filter id).length

/-- Per-word column-position assignment inside a detected header row
(`for w in line_words_sorted: ...`), in the dictionary order of
`column_patterns`, filling only still-unset columns. -/
def applyWordCols (cp : ColumnPositions) (w : Word) : ColumnPositions :=
  let wl := (strLower w.text).data
  let cp :=
    if cp.designation = none ∧ anyMatches designationPatterns wl then
      { cp with designation := some w.x } else cp
  let cp :=
    if cp.quantity = none ∧ anyMatches quantityPatterns wl then
      { cp with quantity := some w.x } else cp
  let cp :=
    if cp.unitPrice = none ∧ anyMatches unitPricePatterns wl then
      { cp with unitPrice := some w.x } else cp
  let cp :=
    if cp.total = none ∧ anyMatches totalPatterns wl then
      { cp with total := some w.x } else cp
  let cp :=
    if cp.vat = none ∧ anyMatches vatPatterns wl then
      { cp with vat := some w.x } else cp
  cp

/-- The header-scanning loop of `_detect_column_headers`, over the
Y-sorted lines, stopping below the top 35% of the page or once at
least two header positions are recorded. -/
def detectColumnHeadersGo : List (ℚ × List Word) → ColumnPositions → ColumnPositions
  | [], cp => cp
  | (y, lw) :: rest, cp =>
    if y > 35 / 100 then cp
    else
      let lws := sortWordsByX lw
      let lineText := (strLower (joinSpace (lws.map (·.text)))).data
      if 2 ≤ countColTypes lineText then
        let cp2 := lws.foldl applyWordCols cp
        if 2 ≤ cp2.count then cp2 else detectColumnHeadersGo rest cp2
      else detectColumnHeadersGo rest cp

/-- `FlorenceService._detect_column_headers`. -/
def detectColumnHeaders (_words : List Word) (sortedLines : List (ℚ × List Word)) :
    ColumnPositions :=
  detectColumnHeadersGo sortedLines {}

/-- Which of the three value columns a number is nearest to. -/
inductive ColChoice where
  | q
  | u
  | t
  deriving Repr, DecidableEq

/-- The nearest-header search of `_assign_values_by_columns` for one
number: among quantity, unit-price and total headers (in that order),
the strictly closest one within the 0.08 tolerance. -/
def bestCol (cp : ColumnPositions) (x : ℚ) : Option ColChoice :=
  let step := fun (best : Option (ColChoice × ℚ)) (c : ColChoice) (pos : Option ℚ) =>
    match pos with
    | none => best
    | some p =>
      let d := |x - p|
      match best with
      | none => if d < 8 / 100 then some (c, d) else none
      | some (b, bd) => if d < bd ∧ d < 8 / 100 then some (c, d) else some (b, bd)
  let b0 := step none .q cp.quantity
  let b1 := step b0 .u cp.unitPrice
  let b2 := step b1 .t cp.total
  b2.map (·.1)

/-- `FlorenceService._assign_values_by_columns`: header-position
matching first (never overwriting an assigned slot), then the rightmost
number as the total if none was assigned.  The triple is (quantity,
unit price, total). -/
def assignValuesByColumns (nums : List NumPos) (cp : ColumnPositions) :
    Option ℚ × Option ℚ × Option ℚ :=
  if nums.isEmpty then (none, none, none)
  else
    let init : Option ℚ × Option ℚ × Option ℚ := (none, none, none)
    let assigned :=
      if cp.count ≠ 0 then
        nums.foldl (fun res num =>
          match bestCol cp num.x with
          | some .q => if res.1 = none then (num.value, res.2.1, res.2.2) else res
          | some .u => if res.2.1 = none then (res.1, num.value, res.2.2) else res
          | some .t => if res.2.2 = none then (res.1, res.2.1, num.value) else res
          | none => res) init
      else init
    if assigned.2.2 = none then
      match (sortNumsByX nums).getLast? with
      | some n => (assigned.1, assigned.2.1, n.value)
      | none => assigned
    else assigned

/-- The keyword alternation of the first `skip_patterns` entry. -/
def skipKeywordAlternation : RE :=
  altList [lit "facture", lit "invoice",
    seqList [lit "total", wsPlus, .chr 'h', optDot, .chr 't'],
    seqList [lit "total", wsPlus, .chr 't', optDot, .chr 't', optDot, .chr 'c'],
    lit "tva", lit "vat", lit "client", lit "adresse", lit "siret", lit "siren",
    lit "iban", lit "bic", lit "page", lit "n°", lit "date", lit "désignation",
    lit "quantité", lit "prix", lit "montant", lit "référence", lit "code postal",
    lit "cedex", lit "tel", lit "fax", lit "email", lit "www.", lit "http",
    lit "titulaire", lit "banque", lit "swift", lit "rib", lit "compte",
    lit "paiement", lit "règlement", lit "conditions", lit "acompte", lit "solde",
    lit "avoir", lit "escompte", lit "pénalité", lit "retard"]

/-- The `skip_patterns` list of `_extract_line_items_improved`. -/
def skipPatterns : List RE :=
  [.grp skipKeywordAlternation,
   seqList [.bos, digits 1 none, .eos],
   seqList [.bos, .rep (.cls (fun c => 'A' ≤ c ∧ c ≤ 'Z')) 2 (some 2), digits 1 none],
   seqList [.bos, digits 1 none, wsStar, reOpt (.chr '€'), .eos],
   seqList [.bos, .chr 'F', .chr 'R', digits 2 (some 2)],
   seqList [.bos, digits 5 (some 5), wsPlus, .rep (.cls isWordChar) 1 none]]

/-- The currency/punctuation tokens excluded from designations. -/
def DESIGNATION_SKIP_CHARS : List String := ["€", "$", "%", "|", ")", "("]

/-- The fallback numeric-assignment heuristics of
`_extract_line_items_improved` (product-identity ordering for three
numbers, larger-is-total for two), overwriting the column assignment
where the source does. -/
def fallbackAssign (nums : List NumPos) (qut : Option ℚ × Option ℚ × Option ℚ) :
    Option ℚ × Option ℚ × Option ℚ :=
  let sorted := sortNumsByX nums
  if 3 ≤ sorted.length then
    match sorted with
    | a :: b :: c :: _ =>
      let n1 := a.value
      let n2 := b.value
      let n3 := c.value
      if pyTruthy n1 ∧ pyTruthy n2 ∧ pyTruthy n3 ∧
          |n1.getD 0 * n2.getD 0 - n3.getD 0| < 1 then (n1, n2, n3)
      else if pyTruthy n1 ∧ pyTruthy n2 ∧ pyTruthy n3 ∧
          |n2.getD 0 * n1.getD 0 - n3.getD 0| < 1 then (n2, n1, n3)
      else
        let t := ((sorted.getLast?).map (·.value)).getD none
        let remaining := sorted.dropLast.filterMap
          (fun n => if pyTruthy n.value then n.value else none)
        match remaining with
        | r0 :: r1 :: _ =>
          if r0 < r1 then (some r0, some r1, t) else (some r1, some r0, t)
        | [r0] =>
          if r0 < 100 ∧ pyTruthy t ∧ r0 < t.getD 0 then (some r0, qut.2.1, t)
          else (qut.1, some r0, t)
        | [] => (qut.1, qut.2.1, t)
    | _ => qut
  else if sorted.length = 2 then
    match sorted with
    | [a, b] =>
      let n1 := a.value
      let n2 := b.value
      if pyTruthy n1 ∧ pyTruthy n2 then
        if n2.getD 0 > n1.getD 0 then
          if n1.getD 0 < 100 then (n1, qut.2.1, n2) else (qut.1, n1, n2)
        else
          if n2.getD 0 < 100 then (n2, qut.2.1, n1) else (qut.1, n2, n1)
      else qut
    | _ => qut
  else qut

/-- The final reconciliation of `_extract_line_items_improved` against
`quantity * unit_price = total`: recompute the unit price from the
stated total when both stated values mismatch the total beyond 1.0 and
the quotient differs from the stated unit price by more than 1.0;
back-fill whichever of quantity/unit price is missing.  Returns the
updated (quantity, unit price). -/
def validateTriple (q u t : Option ℚ) : Option ℚ × Option ℚ :=
  if pyTruthy t ∧ t.getD 0 > 0 then
    let tv := t.getD 0
    if pyTruthy q ∧ pyTruthy u then
      let qv := q.getD 0
      let uv := u.getD 0
      if |qv * uv - tv| > 1 then
        if |uv * qv - tv| < 1 then (q, u)
        else if qv > 0 ∧ |tv / qv - uv| > 1 then (q, some (roundTo2 (tv / qv)))
        else (q, u)
      else (q, u)
    else if pyTruthy q ∧ q.getD 0 > 0 ∧ ¬pyTruthy u then
      (q, some (roundTo2 (tv / q.getD 0)))
    else if pyTruthy u ∧ u.getD 0 > 0 ∧ ¬pyTruthy q then
      let cq := tv / u.getD 0
      if |cq - ((round cq : ℤ) : ℚ)| < 1 / 10 then (some ((round cq : ℤ) : ℚ), u)
      else (some (roundTo2 cq), u)
    else (q, u)
  else (q, u)

/-- The `designation_x_max` boundary (header position plus 0.25, with a
0.50 default when too small). -/
def designationXMaxOf (cp : ColumnPositions) : ℚ :=
  let m := cp.designation.getD 0 + 25 / 100
  if m < 30 / 100 then 1 / 2 else m

/-- One step of the designation/number separation inside a line: numeric
tokens are collected with their positions, left-hand non-symbol tokens
into the designation. -/
def lineStep (dxm : ℚ) (acc : List String × List NumPos) (w : Word) :
    List String × List NumPos :=
  let t := pyStrip w.text
  if isPyNumberTok t.data then (acc.1, acc.2 ++ [{ value := parseNumber t, x := w.x }])
  else if w.x < dxm then
    if DESIGNATION_SKIP_CHARS.contains t then acc else (acc.1 ++ [t], acc.2)
  else acc

/-- The designation clean-up: whitespace collapse, strip, and removal of
leading dash/pipe/colon characters. -/
def cleanDesignation (ws : List String) : String :=
  let d1 := pyStrip (collapseWs (joinSpace ws))
  pyStrip (String.mk (d1.data.dropWhile (fun c => c = '-' ∨ c = '|' ∨ c = ':')))

/-- Column assignment followed by the heuristic fallback when no headers
were detected or the columns filled only the total. -/
def chooseAssignment (cp : ColumnPositions) (nums : List NumPos) :
    Option ℚ × Option ℚ × Option ℚ :=
  let qut0 := assignValuesByColumns nums cp
  if cp.count = 0 ∨ (pyTruthy qut0.2.2 ∧ ¬pyTruthy qut0.1 ∧ ¬pyTruthy qut0.2.1) then
    fallbackAssign nums qut0
  else qut0

/-- The reconciliation and append condition at the end of the line loop
(`if designation and total_ht and total_ht > 0`). -/
def finishLineItem (d2 : String) (qut : Option ℚ × Option ℚ × Option ℚ) :
    Option LineItem :=
  if d2 ≠ "" ∧ pyTruthy qut.2.2 = true ∧ qut.2.2.getD 0 > 0 then
    some { designation := pyTake d2 500,
           quantity := (validateTriple qut.1 qut.2.1 qut.2.2).1,
           unitPrice := (validateTriple qut.1 qut.2.1 qut.2.2).2,
           totalHT := qut.2.2 }
  else none

/-- One iteration of the line loop of `_extract_line_items_improved`:
band filtering, skip patterns, designation/number separation, column or
heuristic assignment, reconciliation, and the append condition. -/
def processLine (cp : ColumnPositions) (yPos : ℚ) (lineWords : List Word) :
    Option LineItem :=
  if yPos < 20 / 100 ∨ yPos > 85 / 100 then none
  else if skipPatterns.any (fun p =>
      reTest p (strLower (joinSpace ((sortWordsByX lineWords).map (·.text)))).data) then
    none
  else if (joinSpace ((sortWordsByX lineWords).map (·.text))).data.length < 5 then none
  else if ((sortWordsByX lineWords).foldl (lineStep (designationXMaxOf cp))
      ([], [])).1.length < 1 ∨
    ((sortWordsByX lineWords).foldl (lineStep (designationXMaxOf cp))
      ([], [])).2.length < 2 then none
  else if ["broderie", "taille", "couleur", "page"].any (fun kw =>
      strContains (strLower (cleanDesignation
        ((sortWordsByX lineWords).foldl (lineStep (designationXMaxOf cp))
          ([], [])).1)) kw) then
    none
  else if (cleanDesignation ((sortWordsByX lineWords).foldl
      (lineStep (designationXMaxOf cp)) ([], [])).1).data.length < 3 then none
  else
    finishLineItem
      (cleanDesignation ((sortWordsByX lineWords).foldl
        (lineStep (designationXMaxOf cp)) ([], [])).1)
      (chooseAssignment cp ((sortWordsByX lineWords).foldl
        (lineStep (designationXMaxOf cp)) ([], [])).2)

/-- `FlorenceService._extract_line_items_improved`. -/
def extractLineItemsImproved (words : List Word) : List LineItem :=
  if words.isEmpty then []
  else
    let sortedLines := sortLinesByY (groupByLines words)
    let cp := detectColumnHeaders words sortedLines
    (sortedLines.filterMap (fun yl => processLine cp yl.1 yl.2)).take 30

/-! ## Field extraction (`florence_service.py`, `_parse_with_ocr_context`
and its helpers) -/

/-- The `invoice_keywords` list of `_parse_with_ocr_context`. -/
def florenceInvoiceKeywords : List String :=
  ["facture", "invoice", "total", "ttc", "ht", "tva"]

/-- The is-invoice gate of the local extractor: any of the six keywords
occurring as a substring of the lower-cased recognized text. -/
def florenceIsInvoice (ocrText : String) : Bool :=
  florenceInvoiceKeywords.any (fun kw => strContains (strLower ocrText) kw)

/-- `symbol_map` of `_extract_currency`, in insertion order. -/
def currencySymbolMap : List (String × String) :=
  [("€", "EUR"), ("$", "USD"), ("£", "GBP"), ("¥", "JPY"), ("₣", "CHF"),
   ("₹", "INR"), ("₽", "RUB"), ("₩", "KRW"), ("₴", "UAH"), ("₺", "TRY"),
   ("₿", "XBT")]

/-- `iso_codes` of `_extract_currency`. -/
def isoCodes : List String :=
  ["EUR", "USD", "GBP", "CHF", "JPY", "CAD", "AUD", "CNY", "INR",
   "BRL", "MXN", "SGD", "HKD", "NOK", "SEK", "DKK", "PLN", "CZK",
   "HUF", "RON", "BGN", "HRK", "RUB", "TRY", "ZAR", "NZD", "KRW"]

/-- The three per-code search patterns of `_extract_currency`. -/
def isoCodePatterns (code : String) : List RE :=
  [wordLit code,
   seqList [digits 1 none, oneOf ['.', ','], digits 2 (some 2), wsStar, lit code],
   seqList [lit code, wsStar, digits 1 none, oneOf ['.', ','], digits 2 (some 2)]]

/-- `name_patterns` of `_extract_currency`. -/
def currencyNamePatterns : List (String × List RE) :=
  [("EUR", [seqList [.bnd, lit "euro", reOpt (.chr 's'), .bnd],
            seqList [.bnd, .chr '€', .bnd]]),
   ("USD", [seqList [.bnd, lit "dollar", reOpt (.chr 's'), .bnd], wordLit "usd",
            seqList [.bnd, lit "us", wsStar, .chr '$']]),
   ("GBP", [seqList [.bnd, lit "pound", reOpt (.chr 's'), .bnd],
            wordLit "sterling", wordLit "gbp"]),
   ("CHF", [seqList [.bnd, lit "franc", reOpt (.chr 's'), wsStar, lit "suisse",
              reOpt (.chr 's'), .bnd],
            wordLit "chf"])]

/-- `FlorenceService._extract_currency`: symbols, then ISO codes, then
currency names, else the ISO `XXX` sentinel. -/
def extractCurrency (text : String) : String :=
  let textUpper := (strUpper text).data
  match currencySymbolMap.find? (fun p => strContains text p.1) with
  | some p => p.2
  | none =>
    match isoCodes.find?
        (fun code => (isoCodePatterns code).any (fun p => reTest p textUpper)) with
    | some code => code
    | none =>
      let textLower := (strLower text).data
      match currencyNamePatterns.find?
          (fun p => p.2.any (fun r => reTest r textLower)) with
      | some p => p.1
      | none => "XXX"

/-- `address_patterns` of `_extract_provider`. -/
def addressPatterns : List RE :=
  [seqList [.bos, digits 1 none],
   altList [lit "rue", lit "avenue", lit "boulevard", lit "allée", lit "chemin",
     lit "place", lit "impasse"],
   seqList [.bos, digits 5 (some 5)],
   altList [lit "france", lit "cedex"],
   altList [lit "tel", lit "fax", lit "email", lit "@", lit "www."],
   altList [lit "siret", lit "siren", lit "tva", lit "rcs", lit "ape", lit "naf"],
   altList [lit "facture", lit "invoice", lit "devis", lit "bon de"],
   altList [lit "client", lit "destinataire", lit "livraison"]]

/-- `company_indicators` of `_extract_provider`. -/
def companyIndicators : List String :=
  ["sarl", "sas", "sa", "eurl", "sasu", "sci", "snc", "gmbh", "ltd", "inc"]

/-- Whether a lower-cased line matches any address/metadata pattern. -/
def isAddressLine (lineLower : List Char) : Bool :=
  addressPatterns.any (fun p => reTest p lineLower)

/-- The top-down line scan of `_extract_provider`. -/
def providerFromLines : List String → Option String
  | [] => none
  | line :: rest =>
    let l := pyStrip line
    if l.data.length < 3 then providerFromLines rest
    else
      let ll := strLower l
      if isAddressLine ll.data then providerFromLines rest
      else if companyIndicators.any (fun ind => strContains ll ind) then
        some (pyTake l 255)
      else
        match l.data with
        | c :: _ =>
          if pyIsUpper c ∧ ¬c.isDigit ∧ l.data.length > 3 then some (pyTake l 255)
          else providerFromLines rest
        | [] => providerFromLines rest

/-- Stable insertion for the (y, x) lexicographic word sort. -/
def insWordByYX (w : Word) : List Word → List Word
  | [] => [w]
  | v :: vs =>
    if v.y < w.y ∨ (v.y = w.y ∧ v.x ≤ w.x) then v :: insWordByYX w vs
    else w :: v :: vs

/-- `top_words.sort(key=lambda w: (w["y"], w["x"]))` (stable). -/
def sortWordsByYX (ws : List Word) : List Word :=
  ws.foldl (fun acc w => insWordByYX w acc) []

/-- `FlorenceService._extract_provider`. -/
def extractProvider (ocrText : String) (words : List Word) : String :=
  let lines := splitLines (pyStrip ocrText)
  match providerFromLines (lines.take 10) with
  | some p => p
  | none =>
    let topWords := words.filter (fun w => w.y < 12 / 100)
    if topWords.isEmpty then ""
    else
      let sorted := sortWordsByYX topWords
      match sorted with
      | [] => ""
      | first :: _ =>
        let firstLineWords :=
          (sorted.filter (fun w => |w.y - first.y| < 15 / 1000)).map (·.text)
        if firstLineWords.isEmpty then ""
        else
          let candidate := joinSpace firstLineWords
          if isAddressLine (strLower candidate).data then "" else pyTake candidate 255

/-- The alphanumeric-dash-slash token class, one or more characters,
under `re.IGNORECASE`. -/
def alnumSlashPlus : RE :=
  .rep (.cls (fun c => ('A' ≤ c ∧ c ≤ 'Z') ∨ ('a' ≤ c ∧ c ≤ 'z') ∨ c.isDigit
    ∨ c = '-' ∨ c = '/')) 1 none

/-- The three `_extract_invoice_number` patterns (case-insensitive). -/
def invoiceNumberPatterns : List RE :=
  [seqList [.alt (litCI "facture") (litCI "invoice"), wsStar,
     .rep (oneOf ['n', 'N', '°', '#', ':']) 0 none, wsStar, .grp alnumSlashPlus],
   seqList [.cls (fun c => c = 'n' ∨ c = 'N'), oneOf ['°', '#'], wsStar,
     reOpt (.chr ':'), wsStar, .grp alnumSlashPlus],
   seqList [.alt (litCI "ref") (litCI "référence"), wsStar,
     .rep (oneOf ['.', ':']) 0 none, wsStar, .grp alnumSlashPlus]]

/-- `FlorenceService._extract_invoice_number`: first matching pattern
wins; the captured token is truncated to 100 characters. -/
def extractInvoiceNumber (text : String) : String :=
  match invoiceNumberPatterns.findSome? (fun p =>
      (reSearch p text.data).map (fun res => res.cap.getD res.matched)) with
  | some cap => pyTake (String.mk cap) 100
  | none => ""

/-- French month names of `_extract_date`. -/
def frenchMonths : List String :=
  ["janvier", "février", "fevrier", "mars", "avril", "mai", "juin", "juillet",
   "août", "aout", "septembre", "octobre", "novembre", "décembre", "decembre"]

/-- English month names of `_extract_date`. -/
def englishMonths : List String :=
  ["january", "february", "march", "april", "may", "june", "july", "august",
   "september", "october", "november", "december"]

/-- Short month names of `_extract_date`. -/
def shortMonths : List String :=
  ["jan", "fév", "fev", "feb", "mar", "avr", "apr", "mai", "may", "jun", "jui",
   "jul", "aoû", "aou", "aug", "sep", "sept", "oct", "nov", "déc", "dec"]

/-- The `all_months` alternation (case-insensitive). -/
def monthsRE : RE := altList ((frenchMonths ++ englishMonths ++ shortMonths).map litCI)

/-- The five `date_patterns`, each fully captured. -/
def datePatterns : List RE :=
  [.grp (seqList [digits 1 (some 2), oneOf ['/', '-', '.'], digits 1 (some 2),
     oneOf ['/', '-', '.'], digits 2 (some 4)]),
   .grp (seqList [digits 4 (some 4), oneOf ['/', '-', '.'], digits 1 (some 2),
     oneOf ['/', '-', '.'], digits 1 (some 2)]),
   .grp (seqList [digits 1 (some 2), wsPlus, monthsRE, optDot, wsPlus,
     digits 4 (some 4)]),
   .grp (seqList [monthsRE, optDot, wsPlus, digits 1 (some 2), reOpt (.chr ','),
     wsPlus, digits 4 (some 4)]),
   .grp (seqList [digits 1 (some 2), wsPlus, monthsRE, optDot, wsPlus,
     digits 2 (some 2)])]

/-- `[:\s]`. -/
def colonOrWs : RE := .cls (fun c => c = ':' || isSpaceChar c)

/-- The eleven `date_labels`. -/
def dateLabels : List RE :=
  [seqList [lit "date", wsStar, reOpt (seqList [lit "de", wsStar]),
     reOpt (seqList [lit "la", wsStar]), lit "facture", wsStar, .rep colonOrWs 0 none],
   seqList [lit "date", wsStar, .chr 'd', reOpt anyChar, lit "émission", wsStar,
     .rep colonOrWs 0 none],
   seqList [lit "date", wsStar, .rep colonOrWs 1 none],
   seqList [lit "émis", reOpt (.chr 'e'), wsStar, lit "le", wsStar,
     .rep colonOrWs 0 none],
   seqList [lit "le", wsStar, .rep colonOrWs 0 none, .la reDigit],
   seqList [lit "en", wsStar, lit "date", wsStar, lit "du", wsStar,
     .rep colonOrWs 0 none],
   seqList [lit "invoice", wsStar, lit "date", wsStar, .rep colonOrWs 0 none],
   seqList [lit "date", wsStar, lit "of", wsStar, lit "invoice", wsStar,
     .rep colonOrWs 0 none],
   seqList [lit "issue", wsStar, lit "date", wsStar, .rep colonOrWs 0 none],
   seqList [lit "date", reOpt (.chr 'd'), wsStar, .rep colonOrWs 1 none],
   seqList [lit "bill", wsStar, lit "date", wsStar, .rep colonOrWs 0 none]]

/-- `FlorenceService._normalize_date`. -/
def normalizeDate (s : String) : String :=
  if s = "" then "" else pyTake (collapseWs (pyStrip s)) 50

/-- Python `"\n".join(xs)`. -/
def joinNl (xs : List String) : String :=
  String.mk (List.intercalate ['\n'] (xs.map (·.data)))

/-- `FlorenceService._extract_date`: labelled dates first, then any date
in the first 20 lines, then any date anywhere. -/
def extractDate (text : String) : String :=
  let textLower := (strLower text).data
  match dateLabels.findSome? (fun label =>
      datePatterns.findSome? (fun dp =>
        (reSearch (seqList [label, wsStar, dp]) textLower).map
          (fun res => res.cap.getD res.matched))) with
  | some cap => normalizeDate (String.mk cap)
  | none =>
    let headerText := joinNl ((splitLines text).take 20)
    match datePatterns.findSome? (fun dp =>
        (reSearch dp headerText.data).map (fun res => res.cap.getD res.matched)) with
    | some cap => normalizeDate (String.mk cap)
    | none =>
      match datePatterns.findSome? (fun dp =>
          (reSearch dp text.data).map (fun res => res.cap.getD res.matched)) with
      | some cap => normalizeDate (String.mk cap)
      | none => ""

/-- The three `_find_amounts_in_text` patterns. -/
def amountPatterns : List RE :=
  [.grp (seqList [digits 1 (some 3),
     .rep (seqList [.cls isSpaceChar, digits 3 (some 3)]) 1 none,
     oneOf ['.', ','], digits 2 (some 2)]),
   .grp (seqList [digits 1 (some 3),
     .rep (seqList [.chr ',', digits 3 (some 3)]) 1 none,
     .chr '.', digits 2 (some 2)]),
   seqList [.grp (seqList [digits 1 none, oneOf ['.', ','], digits 2 (some 2)]),
     wsStar, reOpt (.chr '€')]]

/-- `FlorenceService._find_amounts_in_text`. -/
def findAmountsInText (text : String) : List ℚ :=
  amountPatterns.foldl (fun acc p =>
    acc ++ ((reFindAllStr p text.data).filterMap (fun m =>
      match cleanAmount m with
      | some a => if a > 0 then some a else none
      | none => none))) []

/-- `FlorenceService._extract_total_amount`: scan the last 30 lines
bottom-up per keyword; within a matching line keep amounts above 1.0
(discarding percentage noise) and return the largest. -/
def extractTotalAmount (ocrText : String) (_words : List Word)
    (keywords : List String) : Option ℚ :=
  let linesReversed := (splitLines ocrText).reverse
  keywords.findSome? (fun keyword =>
    (linesReversed.take 30).findSome? (fun line =>
      if strContains (strLower line) keyword then
        let amounts := findAmountsInText line
        if ¬amounts.isEmpty then
          let valid := amounts.filter (fun a => a > 1)
          if ¬valid.isEmpty then valid.max? else none
        else none
      else none))

/-- Keyword groups of `_parse_with_ocr_context`. -/
def totalHtKeywords : List String := ["total ht", "sous-total ht", "total hors taxe"]

/-- Keywords for the tax-inclusive total. -/
def totalTtcKeywords : List String :=
  ["total ttc", "net à payer", "montant ttc", "total à payer"]

/-- Keywords for the tax amount. -/
def vatKeywords : List String := ["montant tva", "total tva"]

/-- `FlorenceService._parse_with_ocr_context`: the is-invoice gate, then
the field extractors; a non-invoice yields only the flag. -/
def parseWithOcrContext (ocrText : String) (_spatialGrid : String)
    (words : List Word) (_vlmResponse : String) : ExtractedData :=
  if ¬florenceIsInvoice ocrText then .notInvoice
  else
    let totalHt := extractTotalAmount ocrText words totalHtKeywords
    let totalTtc := extractTotalAmount ocrText words totalTtcKeywords
    let vat0 := extractTotalAmount ocrText words vatKeywords
    let vatAmount :=
      if pyTruthy totalHt ∧ pyTruthy totalTtc ∧ ¬pyTruthy vat0 then
        some (roundTo2 (totalTtc.getD 0 - totalHt.getD 0))
      else vat0
    .invoice
      { provider := extractProvider ocrText words
        invoiceNumber := extractInvoiceNumber ocrText
        date := extractDate ocrText
        totalHT := totalHt
        totalTTC := totalTtc
        vatAmount := vatAmount
        currency := extractCurrency ocrText
        lineItems := extractLineItemsImproved words }

/-! ## `ValidationService.is_invoice` (`validation_service.py`) -/

/-- `primary_keywords`. -/
def primaryKeywords : List String :=
  ["facture", "invoice", "n° facture", "numéro facture", "invoice number",
   "invoice #"]

/-- `secondary_keywords_french`. -/
def secondaryKeywordsFrench : List String :=
  ["total ttc", "total ht", "tva", "montant total", "sous-total", "ht", "ttc"]

/-- `secondary_keywords_english`. -/
def secondaryKeywordsEnglish : List String :=
  ["total amount", "vat", "subtotal", "tax", "net amount"]

/-- `ValidationService.is_invoice`: one strong keyword, or at least two
supporting keywords; with a keyword-count confidence. -/
def validationIsInvoice (ocrText : String) : Bool × ℚ :=
  let textLower := strLower ocrText
  let primaryMatches :=
    (primaryKeywords.filter (fun kw => strContains textLower kw)).length
  let secondaryMatches :=
    (((secondaryKeywordsFrench ++ secondaryKeywordsEnglish)).filter
      (fun kw => strContains textLower kw)).length
  let isInv : Bool := 1 ≤ primaryMatches ∨ 2 ≤ secondaryMatches
  let confidence :=
    if 1 ≤ primaryMatches then
      min ((7 : ℚ) / 10 + secondaryMatches * (1 / 10)) 1
    else min ((secondaryMatches : ℚ) / 5) (6 / 10)
  (isInv, confidence)

/-! ## Claim theorems for the table reconstruction -/

/-- An optional value with a positive content is truthy and present. -/
theorem pos_pyTruthy {o : Option ℚ} (h : 0 < o.getD 0) :
    pyTruthy o = true ∧ o ≠ none := by
  cases o with
  | none => simp at h
  | some x =>
    simp only [Option.getD_some] at h
    simp [pyTruthy, ne_of_gt h]

/-- `roundTo2` moves a rational by at most 1/200. -/
theorem roundTo2_close (x : ℚ) : |x - roundTo2 x| ≤ 1 / 200 := by
  unfold roundTo2
  have h := abs_sub_round (x * 100)
  have key : x - ((round (x * 100) : ℤ) : ℚ) / 100 =
      (x * 100 - ((round (x * 100) : ℤ) : ℚ)) / 100 := by ring
  rw [key, abs_div, abs_of_pos (show (0 : ℚ) < (100 : ℚ) by norm_num)]
  linarith

/-- A truthy optional value is present. -/
theorem pyTruthy_ne_none {o : Option ℚ} (h : pyTruthy o = true) : o ≠ none := by
  cases o <;> simp_all [pyTruthy]

/-- Soundness of the reconciliation step: for a positive stated total,
the reconciled pair is mutually back-filled, and whenever both members
are positive one of the three tolerance relations holds. -/
theorem validateTriple_spec (q u t : Option ℚ) (ht : pyTruthy t = true)
    (htpos : 0 < t.getD 0) :
    (0 < (validateTriple q u t).1.getD 0 → (validateTriple q u t).2 ≠ none) ∧
    (0 < (validateTriple q u t).2.getD 0 → (validateTriple q u t).1 ≠ none) ∧
    (0 < (validateTriple q u t).1.getD 0 → 0 < (validateTriple q u t).2.getD 0 →
      |(validateTriple q u t).1.getD 0 * (validateTriple q u t).2.getD 0 - t.getD 0| ≤ 1 ∨
      |t.getD 0 / (validateTriple q u t).1.getD 0 - (validateTriple q u t).2.getD 0| ≤ 1 ∨
      |t.getD 0 / (validateTriple q u t).2.getD 0 - (validateTriple q u t).1.getD 0| ≤ 1) := by
  unfold validateTriple
  rw [if_pos ⟨ht, htpos⟩]
  by_cases hqu : pyTruthy q = true ∧ pyTruthy u = true
  · rw [if_pos hqu]
    by_cases hmis : |q.getD 0 * u.getD 0 - t.getD 0| > 1
    · rw [if_pos hmis]
      by_cases hinner : |u.getD 0 * q.getD 0 - t.getD 0| < 1
      · rw [if_pos hinner]
        exfalso
        rw [mul_comm] at hinner
        linarith
      · rw [if_neg hinner]
        by_cases helif : q.getD 0 > 0 ∧ |t.getD 0 / q.getD 0 - u.getD 0| > 1
        · rw [if_pos helif]
          refine ⟨fun _ => by simp, fun _ => pyTruthy_ne_none hqu.1, fun _ _ => ?_⟩
          right
          left
          have hcl := roundTo2_close (t.getD 0 / q.getD 0)
          simp only [Option.getD_some]
          calc |t.getD 0 / q.getD 0 - roundTo2 (t.getD 0 / q.getD 0)| ≤ 1 / 200 := hcl
            _ ≤ 1 := by norm_num
        · rw [if_neg helif]
          push_neg at helif
          refine ⟨fun _ => pyTruthy_ne_none hqu.2, fun _ => pyTruthy_ne_none hqu.1,
            fun hq _ => ?_⟩
          exact Or.inr (Or.inl (helif hq))
    · rw [if_neg hmis]
      push_neg at hmis
      exact ⟨fun _ => pyTruthy_ne_none hqu.2, fun _ => pyTruthy_ne_none hqu.1,
        fun _ _ => Or.inl hmis⟩
  · rw [if_neg hqu]
    by_cases hb5 : pyTruthy q = true ∧ q.getD 0 > 0 ∧ ¬pyTruthy u = true
    · rw [if_pos hb5]
      refine ⟨fun _ => by simp, fun _ => pyTruthy_ne_none hb5.1, fun _ _ => ?_⟩
      right
      left
      have hcl := roundTo2_close (t.getD 0 / q.getD 0)
      simp only [Option.getD_some]
      calc |t.getD 0 / q.getD 0 - roundTo2 (t.getD 0 / q.getD 0)| ≤ 1 / 200 := hcl
        _ ≤ 1 := by norm_num
    · rw [if_neg hb5]
      by_cases hb6 : pyTruthy u = true ∧ u.getD 0 > 0 ∧ ¬pyTruthy q = true
      · rw [if_pos hb6]
        by_cases hint : |t.getD 0 / u.getD 0 - ((round (t.getD 0 / u.getD 0) : ℤ) : ℚ)| < 1 / 10
        · rw [if_pos hint]
          refine ⟨fun _ => pyTruthy_ne_none hb6.1, fun _ => by simp, fun _ _ => ?_⟩
          right
          right
          simp only [Option.getD_some]
          linarith [le_of_lt hint]
        · rw [if_neg hint]
          refine ⟨fun _ => pyTruthy_ne_none hb6.1, fun _ => by simp, fun _ _ => ?_⟩
          right
          right
          simp only [Option.getD_some]
          have hcl := roundTo2_close (t.getD 0 / u.getD 0)
          calc |t.getD 0 / u.getD 0 - roundTo2 (t.getD 0 / u.getD 0)| ≤ 1 / 200 := hcl
            _ ≤ 1 := by norm_num
      · rw [if_neg hb6]
        refine ⟨fun hq => ?_, fun hu => ?_, fun hq hu => ?_⟩
        · exfalso
          have htq := (pos_pyTruthy hq).1
          have htu : ¬pyTruthy u = true := fun htu => hqu ⟨htq, htu⟩
          exact hb5 ⟨htq, hq, htu⟩
        · exfalso
          have htu := (pos_pyTruthy hu).1
          have htq : ¬pyTruthy q = true := fun htq => hqu ⟨htq, htu⟩
          exact hb6 ⟨htu, hu, htq⟩
        · exact absurd ⟨(pos_pyTruthy hq).1, (pos_pyTruthy hu).1⟩ hqu

/-- Inversion of the per-line extraction: every produced item carries a
truthy positive total, and its quantity/unit-price pair is the output of
the reconciliation step against that total. -/
theorem processLine_some {cp : ColumnPositions} {y : ℚ} {lw : List Word}
    {item : LineItem} (h : processLine cp y lw = some item) :
    ∃ q u t, item.quantity = (validateTriple q u t).1 ∧
      item.unitPrice = (validateTriple q u t).2 ∧ item.totalHT = t ∧
      pyTruthy t = true ∧ 0 < t.getD 0 := by
  unfold processLine at h
  split at h
  · exact absurd h (by simp)
  · split at h
    · exact absurd h (by simp)
    · split at h
      · exact absurd h (by simp)
      · split at h
        · exact absurd h (by simp)
        · split at h
          · exact absurd h (by simp)
          · split at h
            · exact absurd h (by simp)
            · unfold finishLineItem at h
              split at h
              next hcond =>
                obtain ⟨_, htr, hpos⟩ := hcond
                rw [← Option.some_inj.mp h]
                exact ⟨_, _, _, rfl, rfl, rfl, htr, hpos⟩
              · exact absurd h (by simp)

/-- C4 (amended).  Every line item produced by the table reconstruction
has a present, positive total; whenever its quantity is positive its
unit price is present (and symmetrically); and whenever both quantity
and unit price are positive, either the stated product identity holds
within 1.0, or the value kept/recomputed for one of them is within 1.0
of the quotient of the stated total by the other. -/
theorem line_item_reconciliation (words : List Word) :
    ∀ item ∈ extractLineItemsImproved words,
      (pyTruthy item.totalHT = true ∧ 0 < item.totalHT.getD 0) ∧
      (0 < item.quantity.getD 0 → item.unitPrice ≠ none) ∧
      (0 < item.unitPrice.getD 0 → item.quantity ≠ none) ∧
      (0 < item.quantity.getD 0 → 0 < item.unitPrice.getD 0 →
        |item.quantity.getD 0 * item.unitPrice.getD 0 - item.totalHT.getD 0| ≤ 1 ∨
        |item.totalHT.getD 0 / item.quantity.getD 0 - item.unitPrice.getD 0| ≤ 1 ∨
        |item.totalHT.getD 0 / item.unitPrice.getD 0 - item.quantity.getD 0| ≤ 1) := by
  intro item hmem
  unfold extractLineItemsImproved at hmem
  split at hmem
  · exact absurd hmem (by simp)
  · have hmem2 := List.take_subset 30 _ hmem
    obtain ⟨yl, _, hpl⟩ := List.mem_filterMap.mp hmem2
    obtain ⟨q, u, t, hq, hu, ht, htr, hpos⟩ := processLine_some hpl
    have hspec := validateTriple_spec q u t htr hpos
    rw [hq, hu, ht]
    exact ⟨⟨htr, hpos⟩, hspec.1, hspec.2.1, hspec.2.2⟩

/-- The concrete token line `"Gadget 3 10 28,5"` used to refute the
tolerance claim. -/
def cw : List Word :=
  [⟨"Gadget", 5 / 100, 1 / 2, 1 / 10, 2 / 100, 90⟩,
   ⟨"3", 6 / 10, 1 / 2, 2 / 100, 2 / 100, 90⟩,
   ⟨"10", 7 / 10, 1 / 2, 2 / 100, 2 / 100, 90⟩,
   ⟨"28,5", 8 / 10, 1 / 2, 4 / 100, 2 / 100, 90⟩]

/-- The single line item the table reconstruction produces on `cw`. -/
def cwItem : LineItem :=
  { designation := "Gadget", quantity := some 3, unitPrice := some 10,
    totalHT := some (57 / 2) }

/-- C4 (counterexample).  On the line `"Gadget 3 10 28,5"` the
reconstruction stores quantity 3, unit price 10 and total 28.5: all
three are present, the product identity is off by 1.5 (beyond the ±1.0
tolerance), and the stated total was not used to recompute the unit
price (28.5 / 3 rounds to 9.5, yet 10 is kept). -/
theorem line_item_tolerance_counterexample :
    extractLineItemsImproved cw = [cwItem] ∧
    pyTruthy cwItem.quantity = true ∧ pyTruthy cwItem.unitPrice = true ∧
    pyTruthy cwItem.totalHT = true ∧
    ¬(|cwItem.quantity.getD 0 * cwItem.unitPrice.getD 0 - cwItem.totalHT.getD 0| ≤ 1) ∧
    cwItem.unitPrice = some 10 ∧
    roundTo2 (cwItem.totalHT.getD 0 / cwItem.quantity.getD 0) = 19 / 2 := by
  with_unfolding_all decide

/-- Witness for `line_item_reconciliation` on the concrete item of `cw`:
the second tolerance relation (unit price within 1.0 of total/quantity)
is the one that holds there. -/
theorem line_item_reconciliation_witness :
    |cwItem.quantity.getD 0 * cwItem.unitPrice.getD 0 - cwItem.totalHT.getD 0| ≤ 1 ∨
    |cwItem.totalHT.getD 0 / cwItem.quantity.getD 0 - cwItem.unitPrice.getD 0| ≤ 1 ∨
    |cwItem.totalHT.getD 0 / cwItem.unitPrice.getD 0 - cwItem.quantity.getD 0| ≤ 1 :=
  (line_item_reconciliation cw cwItem (by with_unfolding_all decide)).2.2.2
    (by norm_num [cwItem]) (by norm_num [cwItem])

/-! ## Claim theorems for the is-invoice gate -/

/-- C8 (counterexample).  On the text `"total"` — no strong invoice
keyword and a single supporting keyword — the claimed rule says
`is_invoice` must be false (and indeed the validation service returns
false), but the local extraction engine returns true and produces a full
invoice record rather than the bare non-invoice marker. -/
theorem is_invoice_gate_counterexample :
    florenceIsInvoice "total" = true ∧
    (validationIsInvoice "total").1 = false ∧
    parseWithOcrContext "total" "" [] "" ≠ ExtractedData.notInvoice := by
  have h1 : florenceIsInvoice "total" = true := by with_unfolding_all decide
  have h2 : (validationIsInvoice "total").1 = false := by with_unfolding_all decide
  refine ⟨h1, h2, ?_⟩
  unfold parseWithOcrContext
  rw [h1]
  simp

/-- C8 (amended).  The local extractor's `is_invoice` is true exactly
when one of the six keywords facture/invoice/total/ttc/ht/tva occurs as
a substring of the lower-cased text; when it is false the extractor
output carries no other field, and the save step archives the document
as an other-document record; the one-strong-or-two-supporting-keywords
rule of the claim is implemented only by the separate validation
service. -/
theorem is_invoice_gate_amended (text grid vlm : String) (words : List Word) :
    (florenceIsInvoice text = true ↔
      strContains (strLower text) "facture" = true ∨
      strContains (strLower text) "invoice" = true ∨
      strContains (strLower text) "total" = true ∨
      strContains (strLower text) "ttc" = true ∨
      strContains (strLower text) "ht" = true ∨
      strContains (strLower text) "tva" = true) ∧
    (parseWithOcrContext text grid words vlm = .notInvoice ↔
      florenceIsInvoice text = false) ∧
    (∀ newId : ℕ, saveRecordIds .notInvoice newId =
      { invoiceId := none, documentId := some newId }) ∧
    ((validationIsInvoice text).1 = true ↔
      1 ≤ (primaryKeywords.filter (fun kw => strContains (strLower text) kw)).length ∨
      2 ≤ (((secondaryKeywordsFrench ++ secondaryKeywordsEnglish)).filter
            (fun kw => strContains (strLower text) kw)).length) := by
  refine ⟨?_, ?_, fun _ => rfl, ?_⟩
  · unfold florenceIsInvoice florenceInvoiceKeywords
    simp
  · by_cases hf : florenceIsInvoice text = true
    · unfold parseWithOcrContext
      rw [hf]
      simp
    · unfold parseWithOcrContext
      rw [Bool.not_eq_true] at hf
      rw [hf]
      simp [hf]
  · unfold validationIsInvoice
    simp

end InvoiceProc
